import Mathlib

/-!
# Verification of the Horror House progression and encounter core

This file gives a shallow embedding of the game logic in `game.py`:
the entity model (items, player, creature, rooms), the world built by
`create_world`, and the turn/encounter state machine of `Game.run`,
`Game.handle_encounter`, `Game.attempt_stun`, `Game.action_use_item`,
`Game.spawn_secret_key` and friends.

Modelling conventions:
* Python `int` is `Int`; Python `//` (floor division) is `Int.fdiv`.
* Rooms are addressed by their index into the `Game.rooms` list, as the
  source itself does for the creature (`_creature_room_index`); Python
  object identity between distinct `Room` objects corresponds to index
  inequality.  The player's current room and the adjacency targets are
  stored as indices for the same reason.
* Every call to `random.*` or to the (validated) interactive `choose`
  prompt becomes an explicit input of the function that performs it:
  dice rolls are `Int` inputs, `random.random() < p` events are `Bool`
  inputs, and `random.choice(lst)` becomes a `Nat` pick that selects
  `lst[pick % len(lst)]` (the pick is total; every in-game call site is
  guarded so the list is non-empty, and `choose` only ever returns a
  valid option).
* Mutation of a Python object becomes functional update; removal of a
  specific object from a list (`list.remove`, identity equality in the
  source since none of the classes define `__eq__`) becomes removal at
  the object's known index (`List.eraseIdx`).
* An uncaught `ValueError` escaping `action_use_item` is modelled by
  `Except`: `.error` carries the state at the raise point.
-/

/-- `random.randint(1, n)` style dice results are passed in as explicit
`Int` arguments; `roll_dice n` itself only matters through its range
`1..n`, recorded as hypotheses where a theorem needs it. -/
def roll_range (n : Int) (r : Int) : Prop := 1 ≤ r ∧ r ≤ n

/-- `random.choice(lst)`: the explicit `pick` input selects
`lst[pick % len(lst)]`; call sites in the game guard `lst ≠ []`. -/
def pickFrom (l : List α) (d : α) (pick : Nat) : α :=
  l.getD (pick % l.length) d

/-- Python `str.lower()`, written over the character list so that it
evaluates inside the kernel. -/
def py_lower (s : String) : String := ⟨s.data.map Char.toLower⟩

/-- Python `str.startswith(pre)`, written over the character lists so
that it evaluates inside the kernel. -/
def py_starts_with (s pre : String) : Bool :=
  s.data.take pre.data.length == pre.data

/-- `StunItem`: stun strength and remaining durability (`game.py` lines
99-112). -/
structure StunItem where
  name : String
  desc : String
  strength : Int
  durability : Int
deriving Repr, DecidableEq

/-- `StunItem.use` (lines 108-112): if depleted return `false`,
otherwise decrement durability and return `true`.  Returns the updated
item together with the boolean. -/
def StunItem.use (s : StunItem) : StunItem × Bool :=
  if s.durability ≤ 0 then (s, false)
  else ({ s with durability := s.durability - 1 }, true)

/-- The item variants of the source: plain `Item`, `StunItem`,
`KeyPart` (lines 88-119).  A `KeyPart`'s `name` is derived
(`"KeyPart" ++ id`), so only `part_id`, `desc`, `backstory` are stored. -/
inductive Item where
  | generic (name desc : String)
  | stun (s : StunItem)
  | keyPart (part_id : Int) (desc backstory : String)
deriving Repr, DecidableEq

/-- `Item.name` as rendered by the source classes. -/
def Item.name : Item → String
  | .generic n _ => n
  | .stun s => s.name
  | .keyPart id _ _ => "KeyPart" ++ toString id

/-- `Player` (lines 162-220).  `current_room` is an index into
`Game.rooms`; `key_parts` stores the collected part ids (the source
stores the `KeyPart` objects, of which only `part_id` is ever read
after collection). -/
structure Player where
  name : String
  character_class : String
  strength : Int
  agility : Int
  magic : Int
  max_hp : Int
  hp : Int
  inventory : List Item
  key_parts : List Int
  current_room : Nat
  is_hiding : Bool
deriving Repr, DecidableEq

/-- `Player.assign_class_stats` (lines 182-206): returns
`(strength, agility, magic, max_hp)` for a class name. -/
def assign_class_stats (character_class : String) : Int × Int × Int × Int :=
  if py_lower character_class = "warrior" then (7, 3, 2, 14)
  else if py_lower character_class = "mage" then (2, 4, 8, 10)
  else if py_lower character_class = "rogue" then (4, 8, 2, 11)
  else (5, 5, 5, 12)

/-- `Player.__init__` followed by `assign_class_stats`: fresh player in
room `start_room` with class stats and full HP. -/
def Player.create (name character_class : String) (start_room : Nat) : Player :=
  let (s, a, m, mhp) := assign_class_stats character_class
  { name := name
    character_class := character_class
    strength := s
    agility := a
    magic := m
    max_hp := mhp
    hp := mhp
    inventory := []
    key_parts := []
    current_room := start_room
    is_hiding := false }

/-- `Player.stun_items` (lines 213-214), but keeping each stun item's
index in the inventory so that later in-place mutation / removal of the
selected object can be modelled by index. -/
def Player.stun_items_idx (p : Player) : List (Nat × StunItem) :=
  p.inventory.enum.filterMap fun ix =>
    match ix.2 with
    | .stun s => some (ix.1, s)
    | _ => none

/-- `Player.has_all_main_keys` (lines 217-220):
`{1,2,3} ⊆ {kp.part_id for kp in key_parts}`. -/
def Player.has_all_main_keys (p : Player) : Bool :=
  p.key_parts.contains 1 && p.key_parts.contains 2 && p.key_parts.contains 3

/-- `Creature` (lines 223-233). -/
structure Creature where
  name : String
  difficulty : Int
  base_detection : Int
  attack_power : Int
  hp : Int
  cooldown : Int
deriving Repr, DecidableEq

/-- `Creature.__init__` (lines 224-233). -/
def Creature.create (difficulty : Int) : Creature :=
  { name := "The Crawling Thing"
    difficulty := difficulty
    base_detection := 8 + difficulty * 2
    attack_power := 1 + difficulty
    hp := 10 + difficulty * 5
    cooldown := 0 }

/-- `Creature.detect_player` (lines 236-247): the creature rolls
`d20 + difficulty*2`; the player's hide score is
`agility + hiding_spots*1 + (4 if hiding) + d6`.  Detected iff the
creature roll is strictly greater.  Returns
`(detected, creature_roll, player_hide_score)`.
`hiding_spots` is passed in directly (the room field). -/
def Creature.detect_player (c : Creature) (agility : Int) (is_hiding : Bool)
    (hiding_spots : Int) (d20 d6 : Int) : Bool × Int × Int :=
  let creature_roll := d20 + c.difficulty * 2
  let base := agility + hiding_spots * 1
  let withHide := if is_hiding then base + 4 else base
  let player_hide_score := withHide + d6
  (creature_roll > player_hide_score, creature_roll, player_hide_score)

/-- `Creature.attack` (lines 250-254): damage is
`attack_power + randint(0, difficulty)` (the random part is the `r`
input); player HP is floored at 0.  Returns the damaged player and the
damage dealt. -/
def Creature.attack (c : Creature) (p : Player) (r : Int) : Player × Int :=
  let damage := c.attack_power + r
  ({ p with hp := max 0 (p.hp - damage) }, damage)

/-- `Creature.special_move` (lines 257-265): `none` when on cooldown,
otherwise set cooldown to `3 + difficulty`, deal
`max 1 (attack_power // 2)` damage (floored at 0 HP). -/
def Creature.special_move (c : Creature) (p : Player) :
    Option ((Creature × Player) × Int) :=
  if c.cooldown > 0 then none
  else
    let c' := { c with cooldown := 3 + c.difficulty }
    let damage := max 1 (c.attack_power.fdiv 2)
    let p' := { p with hp := max 0 (p.hp - damage) }
    some ((c', p'), damage)

/-- `Creature.tick` (lines 268-270): decrement cooldown, floored at 0. -/
def Creature.tick (c : Creature) : Creature :=
  if c.cooldown > 0 then { c with cooldown := c.cooldown - 1 } else c

/-- `Room` (lines 122-155).  `adjacent` maps direction labels to room
indices (the source stores `Room` object references; see the header on
index-based identity).  `items`, `reveal_text` are the mutable fields. -/
structure Room where
  name : String
  short_desc : String
  long_desc : String
  items : List Item
  hiding_spots : Int
  adjacent : List (String × Nat)
  required_unlock_part : Option Int
  reveal_text : Option String
deriving Repr, DecidableEq

/-- Placeholder used only for total list indexing (`List.getD`); every
in-game index is in range. -/
def dummy_room : Room :=
  { name := "", short_desc := "", long_desc := "", items := []
    hiding_spots := 0, adjacent := [], required_unlock_part := none
    reveal_text := none }

/-- `Room.is_accessible` (lines 152-155). -/
def Room.is_accessible (r : Room) (found_parts : List Int) : Bool :=
  match r.required_unlock_part with
  | none => true
  | some f => found_parts.contains f

/-- `BACKSTORIES` (lines 355-360). -/
def BACKSTORIES (i : Int) : String :=
  if i = 1 then "Key Part 1: A smeared drawing of the creature. It was once someone you knew."
  else if i = 2 then "Key Part 2: A note: 'It keeps the house sealed. It remembers.'"
  else if i = 3 then "Key Part 3: A photograph of the family at the doorway — the edges charred."
  else if i = 4 then "Secret Key: Etched into the metal: 'Choice — leave, or stay and learn.'"
  else ""

/-- `create_world` (lines 277-348).  Room indices follow the returned
list `[foyer, living, kitchen, basement, bedroom, attic, study]`:
0 Foyer, 1 Living Room, 2 Kitchen, 3 Basement, 4 Bedroom, 5 Attic,
6 Study.  Adjacency entries appear in the order the `link` calls insert
them into each room's dict. -/
def create_world : List Room :=
  [ { name := "Foyer"
      short_desc := "A dim foyer with a coat rack and a cracked mirror."
      long_desc := "The foyer smells faintly of dust and old smoke. The front door is barred from the outside."
      items := [], hiding_spots := 1
      adjacent := [("north", 1)]
      required_unlock_part := none, reveal_text := none },
    { name := "Living Room"
      short_desc := "A cluttered living room with overturned furniture."
      long_desc := "Old newspapers pile in corners. There's an eerie silence; the TV is cold."
      items := [], hiding_spots := 2
      adjacent := [("south", 0), ("east", 2), ("west", 6), ("north", 4)]
      required_unlock_part := none, reveal_text := none },
    { name := "Kitchen"
      short_desc := "A tiled kitchen with broken plates."
      long_desc := "Cabinets hang open; a faint trail of dried liquid leads under the sink."
      items := [], hiding_spots := 1
      adjacent := [("west", 1), ("down", 3)]
      required_unlock_part := none, reveal_text := none },
    { name := "Basement"
      short_desc := "A cold basement with a humming furnace."
      long_desc := "The basement is dark and low-ceilinged. Ducts scrape above you."
      items := [], hiding_spots := 2
      adjacent := [("up", 2)]
      required_unlock_part := some 1
      reveal_text := some "You discover a hatch in the kitchen floor that leads down. The keypart you found whispers the way." },
    { name := "Bedroom"
      short_desc := "A master bedroom with a canopy bed."
      long_desc := "The bed is unmade as though someone left in a hurry. The closet door creaks."
      items := [], hiding_spots := 1
      adjacent := [("south", 1), ("up", 5)]
      required_unlock_part := none, reveal_text := none },
    { name := "Attic"
      short_desc := "A dusty attic accessible by ladder."
      long_desc := "The attic is full of trunks and old toys. Something seems to have been moved recently."
      items := [], hiding_spots := 3
      adjacent := [("down", 4)]
      required_unlock_part := some 2
      reveal_text := some "With the second key part a loose board creaks; a ladder descends to the attic." },
    { name := "Study"
      short_desc := "A small study lined with books."
      long_desc := "A journal lies open on the desk. The window looks out over the street."
      items := [], hiding_spots := 1
      adjacent := [("east", 1)]
      required_unlock_part := some 3
      reveal_text := some "The third keypiece hums and a shelf slides aside, revealing the study." } ]

/-- The `Game` aggregate (lines 363-376): room list (mutable states),
start room index, creature, player, the `found_parts` id set (a list
queried only through membership), the secret-spawn flag, and the lazily
initialised `_creature_room_index`. -/
structure Game where
  rooms : List Room
  start_room : Nat
  creature : Creature
  player : Player
  found_parts : List Int
  secret_key_spawned : Bool
  creature_room_index : Option Nat
deriving Repr, DecidableEq

/-- Room lookup by index (total; in-game indices are in range). -/
def Game.room_at (g : Game) (i : Nat) : Room :=
  g.rooms.getD i dummy_room

/-- The room the player currently occupies. -/
def Game.player_room (g : Game) : Room :=
  g.room_at g.player.current_room

/-- `Game.get_creature_location` (lines 509-514): lazily initialise
`_creature_room_index` to a random room index whose room is not the
player's current room (Python identity on distinct `Room` objects,
hence index inequality), then return the index.  `initPick` is the
`random.choice` pick. -/
def Game.get_creature_location (g : Game) (initPick : Nat) : Game × Nat :=
  match g.creature_room_index with
  | some i => (g, i)
  | none =>
    let possible := (List.range g.rooms.length).filter
      fun i => i ≠ g.player.current_room
    let i := pickFrom possible 0 initPick
    ({ g with creature_room_index := some i }, i)

/-- Inputs consumed by one `Game.creature_tick` (lines 517-527):
the 50% move event, the lazy-init pick and the adjacent-room pick. -/
structure CreatureTickInput where
  moveRoll : Bool
  initPick : Nat
  movePick : Nat
deriving Repr

/-- `Game.creature_tick`: with probability 50% (the `moveRoll` input)
move the creature to a random adjacent room of its current room, if it
has any. -/
def Game.creature_tick (g : Game) (inp : CreatureTickInput) : Game :=
  if inp.moveRoll then
    let gi := g.get_creature_location inp.initPick
    let g := gi.1
    let cur := g.room_at gi.2
    if cur.adjacent.isEmpty then g
    else
      let next := pickFrom (cur.adjacent.map Prod.snd) 0 inp.movePick
      { g with creature_room_index := some next }
  else g

/-- `Game.describe_current_room` (lines 484-505): the state-relevant
part is the one-shot reveal: if the room's `required_unlock_part` is
truthy (non-`None` and non-zero, Python truthiness), that part has been
found, and the room still has a `reveal_text`, the text is presented
and cleared.  Returns the updated game and the text presented by this
call, if any. -/
def Game.describe_current_room (g : Game) : Game × Option String :=
  let i := g.player.current_room
  let room := g.room_at i
  let fires :=
    (match room.required_unlock_part with
     | some f => f ≠ 0 && g.found_parts.contains f
     | none => false) && room.reveal_text.isSome
  if fires then
    ({ g with rooms := g.rooms.set i { room with reveal_text := none } },
     room.reveal_text)
  else (g, none)

/-- `Game.action_move` (lines 568-587): list the accessible adjacent
rooms, and (if any) move to the chosen one, cancelling hiding.  `pick`
selects among the accessible exits (the `choose` prompt only returns a
listed option). -/
def Game.action_move (g : Game) (pick : Nat) : Game :=
  let room := g.player_room
  let accessible := room.adjacent.filter
    fun dr => (g.room_at dr.2).is_accessible g.found_parts
  if accessible.isEmpty then g
  else
    let chosen := pickFrom accessible ("", 0) pick
    { g with player :=
        { g.player with current_room := chosen.2, is_hiding := false } }

/-- Inputs of one `Game.action_search` (lines 590-636): when the room
is empty, the 20% rare-find event; otherwise the pickup choice
(`none` is the "0. Cancel" option, `some i` the i-th listed item). -/
structure SearchInput where
  findRoll : Bool
  pick : Option Nat
deriving Repr

/-- `Game.action_search`: empty room → 20% chance to add a "Rusty Key";
otherwise pick up the chosen item.  Picking a `KeyPart` also records it
in `key_parts` and `found_parts` and removes it from the room (the
per-room unlock scan at lines 625-629 only re-assigns `reveal_text` to
itself, a no-op).  Picking a generic/stun item moves it from the room
to the inventory. -/
def Game.action_search (g : Game) (inp : SearchInput) : Game :=
  let i := g.player.current_room
  let room := g.room_at i
  if room.items.isEmpty then
    if inp.findRoll then
      let found := Item.generic "Rusty Key" "Probably not the escape key, but something."
      { g with rooms := g.rooms.set i { room with items := room.items ++ [found] } }
    else g
  else
    match inp.pick with
    | none => g
    | some k =>
      let idx := k % room.items.length
      let item := room.items.getD idx (.generic "" "")
      match item with
      | .keyPart pid _ _ =>
        { g with
            player := { g.player with
              inventory := g.player.inventory ++ [item]
              key_parts := g.player.key_parts ++ [pid] }
            found_parts := g.found_parts.insert pid
            rooms := g.rooms.set i { room with items := room.items.eraseIdx idx } }
      | _ =>
        { g with
            player := { g.player with inventory := g.player.inventory ++ [item] }
            rooms := g.rooms.set i { room with items := room.items.eraseIdx idx } }

/-- `Game.action_hide` (lines 639-658): toggle off if hiding; refuse if
the room has no hiding spots; otherwise hide iff
`agility + d6 + (2 if rogue) ≥ 6`. -/
def Game.action_hide (g : Game) (d6 : Int) : Game :=
  let room := g.player_room
  if g.player.is_hiding then
    { g with player := { g.player with is_hiding := false } }
  else if room.hiding_spots ≤ 0 then g
  else
    let hide_roll := g.player.agility + d6 +
      (if py_lower g.player.character_class = "rogue" then 2 else 0)
    if hide_roll ≥ 6 then
      { g with player := { g.player with is_hiding := true } }
    else
      { g with player := { g.player with is_hiding := false } }

/-- `Game.attempt_stun` (lines 857-894) on the stun item at inventory
index `invIdx`.  Consume a use (depleted item: remove it and fail);
then succeed iff `d20 + strength + player.strength // 2` reaches the
creature defense `12 + difficulty*3 + d6`.  On a success whose margin
is ≥ 8 or with player magic > 6, the "long stun" moves the creature to
a random adjacent room of its current location (`longPick`).  Whatever
the outcome, a now-depleted item is removed from the inventory.
Returns `(game, success, durability of the item object after the
attempt)`; the durability is what the caller `action_use_item` reads
back from the shared object.  `initPick` feeds the (always already
initialised at the call sites) lazy creature-location lookup. -/
def Game.attempt_stun (g : Game) (invIdx : Nat) (d20 d6 : Int)
    (longPick initPick : Nat) : Game × Bool × Int :=
  match g.player.inventory.getD invIdx (.generic "" "") with
  | .stun s =>
    let (s', usable) := s.use
    if !usable then
      ({ g with player := { g.player with
          inventory := g.player.inventory.eraseIdx invIdx } }, false, s.durability)
    else
      let g1 := { g with player := { g.player with
          inventory := g.player.inventory.set invIdx (.stun s') } }
      let player_roll := d20 + s'.strength + g1.player.strength.fdiv 2
      let creature_defense := 12 + g1.creature.difficulty * 3 + d6
      if player_roll ≥ creature_defense then
        let g2 :=
          if player_roll ≥ creature_defense + 8 ∨ g1.player.magic > 6 then
            let gi := g1.get_creature_location initPick
            let croom := gi.1.room_at gi.2
            let tgt := pickFrom (croom.adjacent.map Prod.snd) 0 longPick
            if croom.adjacent.isEmpty then gi.1
            else { gi.1 with creature_room_index := some tgt }
          else g1
        let g3 :=
          if s'.durability ≤ 0 then
            { g2 with player := { g2.player with
                inventory := g2.player.inventory.eraseIdx invIdx } }
          else g2
        (g3, true, s'.durability)
      else
        let g3 :=
          if s'.durability ≤ 0 then
            { g1 with player := { g1.player with
                inventory := g1.player.inventory.eraseIdx invIdx } }
          else g1
        (g3, false, s'.durability)
  | _ => (g, false, 0)

/-- The random/interactive inputs one `Game.action_use_item` call may
consume: the inventory choice (`none` is "0. Cancel"), the stun rolls,
the long-stun relocation pick, the lazy-location pick, and the potion
heal die. -/
structure UseInput where
  pick : Option Nat
  d20 : Int
  d6 : Int
  longPick : Nat
  initPick : Nat
  d4 : Int
deriving Repr

/-- `Game.action_use_item` (lines 679-722).  Empty inventory, cancel,
or the (unreachable behind `choose`) out-of-range guard: no effect.
A stun item with the creature co-located runs `attempt_stun`, after
which the source re-removes the item when its durability is ≤ 0
*without* a `try` block: `attempt_stun` already removed it in that
case, so `list.remove` raises `ValueError` — modelled as `.error`
carrying the state at the raise point.  A stun item with the creature
elsewhere is merely readied.  An item whose lowercased name starts
with "health" heals `3 + d4` capped at `max_hp` and is consumed.
Anything else does nothing. -/
def Game.action_use_item (g : Game) (inp : UseInput) : Except Game Game :=
  if g.player.inventory.isEmpty then .ok g
  else
    match inp.pick with
    | none => .ok g
    | some idx =>
      if idx ≥ g.player.inventory.length then .ok g
      else
        let item := g.player.inventory.getD idx (.generic "" "")
        match item with
        | .stun _ =>
          let gi := g.get_creature_location inp.initPick
          if gi.1.player.current_room = gi.2 then
            let r := gi.1.attempt_stun idx inp.d20 inp.d6 inp.longPick inp.initPick
            if r.2.2 ≤ 0 then .error r.1 else .ok r.1
          else .ok gi.1
        | _ =>
          if py_starts_with (py_lower item.name) "health" then
            let heal := 3 + inp.d4
            .ok { g with player := { g.player with
                hp := min g.player.max_hp (g.player.hp + heal)
                inventory := g.player.inventory.eraseIdx idx } }
          else .ok g

/-- Outcome of one round of the engaged tactic loop inside
`Game.handle_encounter` (lines 744-847): `exit` is a `break` or a
`return` (the encounter is over, play returns to the turn loop),
`again` is a `continue` (back to tactic selection), `quitGame` is the
surrender `sys.exit`, `crashed` an uncaught exception propagating out. -/
inductive TacticOutcome where
  | exit (g : Game)
  | again (g : Game)
  | quitGame (g : Game)
  | crashed (g : Game)
deriving Repr, DecidableEq

/-- The game state carried by a `TacticOutcome`. -/
def TacticOutcome.state : TacticOutcome → Game
  | .exit g => g
  | .again g => g
  | .quitGame g => g
  | .crashed g => g

/-- Encounter option "1. Attempt to Stun" (lines 752-784).  With no
stun items the tactic is rejected (`continue`).  Otherwise the chosen
stun item (by position in the listed stun items, which records its
inventory index) is put through `attempt_stun`; on success the creature
is moved to a random adjacent room of `creature_room` — the room
captured at the top of `handle_encounter` — if it has any, and the
loop breaks; on failure the creature attacks, returning if that kills
the player and continuing otherwise. -/
def Game.stun_tactic (g : Game) (creature_room : Nat) (itemPick : Nat)
    (d20 d6 : Int) (longPick relocPick : Nat) (atkRand : Int) : TacticOutcome :=
  let sitems := g.player.stun_items_idx
  if sitems.isEmpty then .again g
  else
    let chosen := pickFrom sitems (0, { name := "", desc := "", strength := 0, durability := 0 }) itemPick
    let r := g.attempt_stun chosen.1 d20 d6 longPick 0
    if r.2.1 then
      let croom := r.1.room_at creature_room
      if croom.adjacent.isEmpty then .exit r.1
      else
        let tgt := pickFrom (croom.adjacent.map Prod.snd) 0 relocPick
        .exit { r.1 with creature_room_index := some tgt }
    else
      let pa := r.1.creature.attack r.1.player atkRand
      let g1 : Game := { r.1 with player := pa.1 }
      if g1.player.hp ≤ 0 then .exit g1 else .again g1

/-- Encounter option "2. Attempt to Hide" (lines 785-809): succeed iff
`agility + d6 + (2 if rogue) + hiding_spots ≥ 8 + difficulty*2`; on
success start hiding and with 50% probability (`leaveRoll`) the
creature moves to a random adjacent room of the captured
`creature_room`; on failure the creature attacks. -/
def Game.hide_tactic (g : Game) (creature_room : Nat) (d6 : Int)
    (leaveRoll : Bool) (leavePick : Nat) (atkRand : Int) : TacticOutcome :=
  let room := g.player_room
  let hide_roll := g.player.agility + d6 +
    (if py_lower g.player.character_class = "rogue" then 2 else 0) +
    room.hiding_spots
  if hide_roll ≥ 8 + g.creature.difficulty * 2 then
    let g1 : Game := { g with player := { g.player with is_hiding := true } }
    if leaveRoll then
      let croom := g1.room_at creature_room
      if croom.adjacent.isEmpty then .exit g1
      else
        let tgt := pickFrom (croom.adjacent.map Prod.snd) 0 leavePick
        .exit { g1 with creature_room_index := some tgt }
    else .exit g1
  else
    let pa := g.creature.attack g.player atkRand
    let g1 : Game := { g with player := pa.1 }
    if g1.player.hp ≤ 0 then .exit g1 else .again g1

/-- The three ways encounter option "3. Move (risky)" (the flee
tactic, lines 810-837) can come out, distinguished by the message the
source prints: `escaped` ("You bolt into ..."), `nowhereToRun`
("There is nowhere to run!" plus an attack, on a *successful* roll in
a room without exits), `failEscape` ("You fail to escape ..." plus an
attack, on a failed roll). -/
inductive FleeResult where
  | escaped (g : Game)
  | nowhereToRun (g : Game)
  | failEscape (g : Game)
deriving Repr, DecidableEq

/-- The game state carried by a `FleeResult`. -/
def FleeResult.state : FleeResult → Game
  | .escaped g => g
  | .nowhereToRun g => g
  | .failEscape g => g

/-- The flee tactic (lines 810-837): succeed iff
`agility + d6 > 10 + difficulty`; on success in a room with exits the
player moves to a random adjacent room, stops hiding and the creature
follows with 60% probability (`followRoll`); on success in a room
without exits the source prints "There is nowhere to run!" and the
creature attacks; on a failed roll the creature attacks. -/
def Game.flee_tactic (g : Game) (d6 : Int) (destPick : Nat)
    (followRoll : Bool) (atkRand : Int) : FleeResult :=
  let room := g.player_room
  let escape_roll := g.player.agility + d6
  if escape_roll > 10 + g.creature.difficulty then
    if room.adjacent.isEmpty then
      let pa := g.creature.attack g.player atkRand
      .nowhereToRun { g with player := pa.1 }
    else
      let dest := pickFrom (room.adjacent.map Prod.snd) 0 destPick
      let g1 : Game := { g with player :=
        { g.player with current_room := dest, is_hiding := false } }
      if followRoll then .escaped { g1 with creature_room_index := some dest }
      else .escaped g1
  else
    let pa := g.creature.attack g.player atkRand
    .failEscape { g with player := pa.1 }

/-- How a `FleeResult` feeds back into the tactic loop: escape breaks,
either attack outcome returns if the player is dead and otherwise
continues the loop. -/
def FleeResult.toOutcome : FleeResult → TacticOutcome
  | .escaped g => .exit g
  | .nowhereToRun g => if g.player.hp ≤ 0 then .exit g else .again g
  | .failEscape g => if g.player.hp ≤ 0 then .exit g else .again g

/-- One tactic selection of the engaged loop, with the rolls and picks
that branch would consume.  `stun` is option "1", `hide` option "2",
`flee` option "3" ("Move (risky)"), `useItem` option "4", `surrender`
option "5". -/
inductive TacticChoice where
  | stun (itemPick : Nat) (d20 d6 : Int) (longPick relocPick : Nat) (atkRand : Int)
  | hide (d6 : Int) (leaveRoll : Bool) (leavePick : Nat) (atkRand : Int)
  | flee (d6 : Int) (destPick : Nat) (followRoll : Bool) (atkRand : Int)
  | useItem (u : UseInput)
  | surrender
deriving Repr

/-- Collapse the `Except` result of `action_use_item` to the carried
state (used where the caller does not distinguish). -/
def useResultState : Except Game Game → Game
  | .ok g => g
  | .error g => g

/-- One iteration of the engaged `while True` loop (lines 745-847).
Option "4" delegates to `action_use_item` and continues the loop; an
exception escaping it is not caught anywhere inside `handle_encounter`,
so it crashes the run.  Option "5" is the surrender exit. -/
def Game.encounter_round (g : Game) (creature_room : Nat) :
    TacticChoice → TacticOutcome
  | .stun ip d20 d6 lp rp ar => g.stun_tactic creature_room ip d20 d6 lp rp ar
  | .hide d6 lr lp ar => g.hide_tactic creature_room d6 lr lp ar
  | .flee d6 dp fr ar => (g.flee_tactic d6 dp fr ar).toOutcome
  | .useItem u =>
    match g.action_use_item u with
    | .ok g1 => .again g1
    | .error g1 => .crashed g1
  | .surrender => .quitGame g

/-- Result of a whole `handle_encounter` call: `done` covers every
normal return (undetected, broke free, or left at 0 HP for the turn
loop to notice), `quitGame` the surrender exit, `crashed` an uncaught
exception, `outOfInput` the modelled tactic-input list running out
while the interactive loop would keep prompting. -/
inductive EncounterResult where
  | done (g : Game)
  | quitGame (g : Game)
  | crashed (g : Game)
  | outOfInput (g : Game)
deriving Repr, DecidableEq

/-- The game state carried by an `EncounterResult`. -/
def EncounterResult.state : EncounterResult → Game
  | .done g => g
  | .quitGame g => g
  | .crashed g => g
  | .outOfInput g => g

/-- The engaged loop, driven by the list of tactic selections. -/
def Game.encounter_loop (g : Game) (creature_room : Nat) :
    List TacticChoice → EncounterResult
  | [] => .outOfInput g
  | t :: rest =>
    match g.encounter_round creature_room t with
    | .exit g1 => .done g1
    | .again g1 => g1.encounter_loop creature_room rest
    | .quitGame g1 => .quitGame g1
    | .crashed g1 => .crashed g1

/-- The inputs one `handle_encounter` call may consume: the lazy
location pick, the detection dice, the 20% wander-off event of the
unnoticed branch with its pick, and the tactic rounds. -/
structure EncounterInput where
  initPick : Nat
  d20 : Int
  d6 : Int
  sniffRoll : Bool
  sniffPick : Nat
  tactics : List TacticChoice
deriving Repr

/-- `Game.handle_encounter` (lines 731-854): no-op unless the player
and creature share a room; run the detection check; if detected run
the engaged loop, and otherwise the creature wanders off with 20%
probability. -/
def Game.handle_encounter (g : Game) (inp : EncounterInput) : EncounterResult :=
  let gi := g.get_creature_location inp.initPick
  if gi.1.player.current_room ≠ gi.2 then .done gi.1
  else
    let g1 := gi.1
    let room := g1.player_room
    let det := g1.creature.detect_player g1.player.agility g1.player.is_hiding
      room.hiding_spots inp.d20 inp.d6
    if det.1 then g1.encounter_loop gi.2 inp.tactics
    else
      if inp.sniffRoll then
        let croom := g1.room_at gi.2
        if croom.adjacent.isEmpty then .done g1
        else
          let tgt := pickFrom (croom.adjacent.map Prod.snd) 0 inp.sniffPick
          .done { g1 with creature_room_index := some tgt }
      else .done g1

/-- `Game.spawn_secret_key` (lines 897-903): add key part 4 to a
random room other than the start room and set the flag. -/
def Game.spawn_secret_key (g : Game) (pick : Nat) : Game :=
  let candidates := (List.range g.rooms.length).filter fun i => i ≠ g.start_room
  let i := pickFrom candidates 0 pick
  let room := g.room_at i
  let secret := Item.keyPart 4 "A cold, ornate key that hums faintly." (BACKSTORIES 4)
  { g with
      rooms := g.rooms.set i { room with items := room.items ++ [secret] }
      secret_key_spawned := true }

/-- One action selection of `Game.player_turn` (lines 530-565), with
its inputs.  Options "4. Inventory" and "6. Status" only print. -/
inductive ActionInput where
  | move (pick : Nat)
  | search (inp : SearchInput)
  | hide (d6 : Int)
  | inventory
  | useItem (u : UseInput)
  | status
  | quit (confirm : Bool)
deriving Repr

/-- Result of `player_turn`: either play continues with the updated
state, or the player confirmed the quit prompt (`end_game` +
`sys.exit`). -/
inductive PlayerTurnResult where
  | next (g : Game)
  | quitGame (g : Game)
deriving Repr, DecidableEq

/-- The game state carried by a `PlayerTurnResult`. -/
def PlayerTurnResult.state : PlayerTurnResult → Game
  | .next g => g
  | .quitGame g => g

/-- `Game.player_turn`: dispatch one chosen action.  The whole
dispatch sits in a `try`/`except` (lines 544-565), so a `ValueError`
escaping `action_use_item` here is caught and play continues with the
state at the raise point. -/
def Game.player_turn (g : Game) : ActionInput → PlayerTurnResult
  | .move p => .next (g.action_move p)
  | .search s => .next (g.action_search s)
  | .hide d6 => .next (g.action_hide d6)
  | .inventory => .next g
  | .useItem u => .next (useResultState (g.action_use_item u))
  | .status => .next g
  | .quit c => if c then .quitGame g else .next g

/-- Everything one iteration of the `Game.run` loop (lines 444-481)
may consume after the win prompt: the player action, the creature
patrol inputs, the lazy pick of the co-location check, the encounter
inputs, and the 60% secret-spawn roll with its room pick. -/
structure TurnInput where
  escape : Bool
  action : ActionInput
  ctick : CreatureTickInput
  encInitPick : Nat
  enc : EncounterInput
  spawnRoll : Bool
  spawnPick : Nat
deriving Repr

/-- Result of one iteration of the `run` loop: `lost` is the 0-HP
check at the top, `won` the confirmed escape, `quitGame` a voluntary
exit from inside the turn, `next` the loop going round again,
`crashed` an uncaught exception, `outOfInput` exhausted modelled
input. -/
inductive TurnResult where
  | lost (g : Game)
  | won (g : Game)
  | quitGame (g : Game)
  | next (g : Game)
  | crashed (g : Game)
  | outOfInput (g : Game)
deriving Repr, DecidableEq

/-- The game state carried by a `TurnResult`. -/
def TurnResult.state : TurnResult → Game
  | .lost g => g
  | .won g => g
  | .quitGame g => g
  | .next g => g
  | .crashed g => g
  | .outOfInput g => g

/-- The tail of one `run` iteration after the lose/win checks (lines
466-481): describe the room (consuming a pending reveal), tick the
creature's patrol, take the player action, resolve the encounter if
co-located, tick the creature cooldown, and finally roll the secret
spawn if all main keys are held and it has not spawned yet. -/
def Game.turn_rest (g : Game) (inp : TurnInput) : TurnResult :=
  let g1 := (g.describe_current_room).1
  let g2 := g1.creature_tick inp.ctick
  match g2.player_turn inp.action with
  | .quitGame gq => .quitGame gq
  | .next g3 =>
    let gi := g3.get_creature_location inp.encInitPick
    let encRes :=
      if gi.1.player.current_room = gi.2 then gi.1.handle_encounter inp.enc
      else .done gi.1
    match encRes with
    | .quitGame gq => .quitGame gq
    | .crashed gc => .crashed gc
    | .outOfInput go => .outOfInput go
    | .done g4 =>
      let g5 : Game := { g4 with creature := g4.creature.tick }
      if g5.player.has_all_main_keys && !g5.secret_key_spawned then
        if inp.spawnRoll then .next (g5.spawn_secret_key inp.spawnPick)
        else .next g5
      else .next g5

/-- One full iteration of the `Game.run` while-loop (lines 444-481):
lose check, then the win check — the escape prompt appears only with
all three main keys in the start room, and only the explicit "1"
answer (`inp.escape = true`) wins; declining continues the turn with
the state untouched. -/
def Game.run_turn (g : Game) (inp : TurnInput) : TurnResult :=
  if g.player.hp ≤ 0 then .lost g
  else if g.player.has_all_main_keys && (g.player.current_room == g.start_room) then
    if inp.escape then .won g else g.turn_rest inp
  else g.turn_rest inp

/-- The states a run passes through when driven by a list of turn
inputs: each `next` continues, any other result ends the trace with
its final state. -/
def Game.run_states (g : Game) : List TurnInput → List Game
  | [] => []
  | i :: rest =>
    match g.run_turn i with
    | .next g1 => g1 :: g1.run_states rest
    | .lost g1 => [g1]
    | .won g1 => [g1]
    | .quitGame g1 => [g1]
    | .crashed g1 => [g1]
    | .outOfInput g1 => [g1]

/-- Number of adjacent pairs in a state list at which the
`secret_key_spawned` flag flips from unset to set. -/
def spawn_flips : List Game → Nat
  | a :: b :: rest =>
    (if !a.secret_key_spawned && b.secret_key_spawned then 1 else 0) +
      spawn_flips (b :: rest)
  | _ => 0

/-! ## Generic helper lemmas -/

/-- A fresh game in the shipped world: Warrior player in the Foyer,
creature location not yet initialised, nothing collected. -/
def sampleGame : Game :=
  { rooms := create_world
    start_room := 0
    creature := Creature.create 1
    player := Player.create "Sam" "Warrior" 0
    found_parts := []
    secret_key_spawned := false
    creature_room_index := none }

/-- `sampleGame` with a durability-1 Rock in the inventory and the
creature co-located with the player in the Foyer. -/
def stunGame : Game :=
  { sampleGame with
    creature_room_index := some 0
    player := { sampleGame.player with
      inventory := [Item.stun { name := "Rock", desc := "A crude rock found in the yard.", strength := 3, durability := 1 }] } }

/-- `sampleGame` with a durability-2 Stun Spray and the creature
co-located, for exercising the use-item stun path. -/
def sprayGame : Game :=
  { sampleGame with
    creature_room_index := some 0
    player := { sampleGame.player with
      inventory := [Item.stun { name := "Stun Spray", desc := "A small chemical canister; temporarily stuns.", strength := 10, durability := 2 }] } }

/-! ## C2 -/

/-- `sampleGame` with a hurt player holding one Health Potion. -/
def potionGame : Game :=
  { sampleGame with player := { sampleGame.player with
      hp := 5
      inventory := [Item.generic "Health Potion" "Restores some health when used."] } }

/-- The use-item inputs for drinking the potion with a d4 roll of 2. -/
def potionInput : UseInput :=
  { pick := some 0, d20 := 0, d6 := 0, longPick := 0, initPick := 0, d4 := 2 }

/-- The result of the difficulty-1 creature pouncing on the fresh
sample player: cooldown set to 4, one point of damage. -/
def pounced : (Creature × Player) × Int :=
  (({ name := "The Crawling Thing", difficulty := 1, base_detection := 10,
      attack_power := 2, hp := 15, cooldown := 4 },
    { sampleGame.player with hp := 13 }), 1)

/-- Discriminator for the "There is nowhere to run!" outcome. -/
def FleeResult.isNowhere : FleeResult → Bool
  | .nowhereToRun _ => true
  | _ => false

/-- A single room with no exits, for exercising the no-exit flee
branch. -/
def deadEndRoom : Room :=
  { name := "Cell", short_desc := "A bare cell.", long_desc := "No way out."
    items := [], hiding_spots := 1, adjacent := [], required_unlock_part := none
    reveal_text := none }

/-- A Rogue (agility 8) trapped with the difficulty-2 creature in a
room with no exits — the configuration of the claim's flee examples. -/
def cellGame : Game :=
  { rooms := [deadEndRoom]
    start_room := 0
    creature := Creature.create 2
    player := Player.create "c" "Rogue" 0
    found_parts := []
    secret_key_spawned := false
    creature_room_index := some 0 }

/-- The state after the sample Warrior successfully bolts north. -/
def fleeOkState : Game :=
  { sampleGame with player :=
      { sampleGame.player with current_room := 1, is_hiding := false } }

/-- The state after the sample Warrior fails to escape and is struck. -/
def fleeFailState : Game :=
  { sampleGame with player := { sampleGame.player with hp := 12 } }

/-- Discriminator for a non-raising `action_use_item` call. -/
def useOk : Except Game Game → Bool
  | .ok _ => true
  | .error _ => false

/-- The Rock stun item `stunGame` starts with. -/
def rockItem : StunItem :=
  { name := "Rock", desc := "A crude rock found in the yard.", strength := 3, durability := 1 }

/-- The Stun Spray item `sprayGame` starts with. -/
def sprayItem : StunItem :=
  { name := "Stun Spray", desc := "A small chemical canister; temporarily stuns.", strength := 10, durability := 2 }

/-- Use-item inputs firing the Stun Spray with a d20 of 3 and a
defense d6 of 1: the stun succeeds with margin 0. -/
def sprayInput : UseInput :=
  { pick := some 0, d20 := 3, d6 := 1, longPick := 0, initPick := 0, d4 := 0 }

/-- What one phase of a turn preserves: collected key parts only ever
grow (by appending), the secret-spawn flag, the start room and the
room count are untouched, and a consumed (`none`) reveal text never
comes back. -/
def PhaseEvo (g g' : Game) : Prop :=
  (∃ l, g'.player.key_parts = g.player.key_parts ++ l) ∧
  g'.secret_key_spawned = g.secret_key_spawned ∧
  g'.start_room = g.start_room ∧
  g'.rooms.length = g.rooms.length ∧
  ∀ i, (g.room_at i).reveal_text = none → (g'.room_at i).reveal_text = none

/-- The sample Warrior holding all three main fragments, standing in
the Foyer. -/
def winGame : Game :=
  { sampleGame with player := { sampleGame.player with key_parts := [1, 2, 3] } }

/-- A quiet turn whose only interesting input is answering the escape
prompt with "1". -/
def winInput : TurnInput :=
  { escape := true, action := .status, ctick := ⟨false, 0, 0⟩, encInitPick := 0
    enc := { initPick := 0, d20 := 1, d6 := 1, sniffRoll := false, sniffPick := 0, tactics := [] }
    spawnRoll := false, spawnPick := 0 }

/-- The same turn but declining the escape prompt. -/
def declineInput : TurnInput := { winInput with escape := false }

/-- `winGame` with the secret flag already set. -/
def spawnedGame : Game := { winGame with secret_key_spawned := true }

/-- A turn input that declines escape and rolls the 60% spawn event. -/
def spawnInput : TurnInput := { winInput with escape := false, spawnRoll := true }

/-- The Basement room as built by `create_world` (requirement: part 1). -/
def basementRoom : Room := create_world.getD 3 dummy_room

/-- The Foyer as built by `create_world`. -/
def foyerRoom : Room := create_world.getD 0 dummy_room

/-- The Foyer with key fragment 1 lying in it. -/
def foyerWithKey : Room :=
  { foyerRoom with items := [Item.keyPart 1 "A tarnished key fragment (1)" (BACKSTORIES 1)] }

/-- `sampleGame` with fragment 1 waiting in the Foyer. -/
def searchGame : Game :=
  { sampleGame with rooms := create_world.set 0 foyerWithKey }

/-- Search input that picks up the first listed item. -/
def searchInput : SearchInput := { findRoll := false, pick := some 0 }

/-- `sampleGame` with fragment 1 collected and the player standing in
the Basement, whose reveal text is still pending. -/
def revealGame : Game :=
  { sampleGame with
    found_parts := [1]
    player := { sampleGame.player with current_room := 3 } }

/-- A `pickFrom` on a non-empty list returns one of its elements. -/
theorem pickFrom_mem (l : List α) (d : α) (p : Nat) (h : l ≠ []) :
    pickFrom l d p ∈ l := by
  have hlen : 0 < l.length := List.length_pos.mpr h
  have hmod : p % l.length < l.length := Nat.mod_lt _ hlen
  unfold pickFrom
  rw [List.getD_eq_getElem l d hmod]
  exact List.getElem_mem hmod

/-- Setting then erasing the same index is just erasing it. -/
theorem eraseIdx_set (l : List α) (i : Nat) (a : α) :
    (l.set i a).eraseIdx i = l.eraseIdx i := by
  induction l generalizing i with
  | nil => simp
  | cons x xs ih =>
    cases i with
    | zero => simp
    | succ j => simpa using ih j

/-! ## Sample states used by witnesses and counterexamples -/

/-- C2: the detection check is a deterministic function of its rolled
inputs — detected iff `d20 + difficulty*2` exceeds
`agility + hiding_spots*1 + (4 if hiding) + d6` — and on the claim's
concrete instance (difficulty 1 and `d20 = 13`, so a creature roll of
15; agility 5, 2 hiding spots, hiding, `d6 = 3`) the hide score is 14
and the player is detected. -/
theorem C2_detection_deterministic :
    (∀ (c : Creature) (agility : Int) (hid : Bool) (spots d20 d6 : Int),
      (c.detect_player agility hid spots d20 d6).1 =
        decide (d20 + c.difficulty * 2 >
          agility + spots * 1 + (if hid then (4 : Int) else 0) + d6)) ∧
    (Creature.create 1).detect_player 5 true 2 13 3 = (true, 15, 14) := by
  constructor
  · intro c agility hid spots d20 d6
    unfold Creature.detect_player
    simp only [decide_eq_decide]
    cases hid <;> simp
  · decide

/-! ## C10 -/

/-- C10: the lazily initialised creature location is always a room
index different from the player's current room, provided the world has
at least two rooms; the chosen index is recorded in the state. -/
theorem C10_initial_location_distinct (g : Game) (pick : Nat)
    (h1 : g.creature_room_index = none) (h2 : 2 ≤ g.rooms.length) :
    (g.get_creature_location pick).2 ≠ g.player.current_room ∧
    (g.get_creature_location pick).1.creature_room_index =
      some (g.get_creature_location pick).2 := by
  have hne : (List.range g.rooms.length).filter
      (fun i => i ≠ g.player.current_room) ≠ [] := by
    intro hnil
    by_cases hc : g.player.current_room = 0
    · have h1mem : 1 ∈ (List.range g.rooms.length).filter
          (fun i => i ≠ g.player.current_room) := by
        refine List.mem_filter.mpr ⟨List.mem_range.mpr (by omega), by simp [hc]⟩
      rw [hnil] at h1mem
      exact (List.not_mem_nil 1) h1mem
    · have h0mem : 0 ∈ (List.range g.rooms.length).filter
          (fun i => i ≠ g.player.current_room) := by
        refine List.mem_filter.mpr ⟨List.mem_range.mpr (by omega), by simp ; omega⟩
      rw [hnil] at h0mem
      exact (List.not_mem_nil 0) h0mem
  have hmem := pickFrom_mem ((List.range g.rooms.length).filter
      (fun i => i ≠ g.player.current_room)) 0 pick hne
  have hne2 := (List.mem_filter.mp hmem).2
  simp only [decide_eq_true_eq] at hne2
  unfold Game.get_creature_location
  rw [h1]
  exact ⟨hne2, rfl⟩

/-- Witness for C10 on the shipped world. -/
theorem C10_witness :
    sampleGame.creature_room_index = none ∧ 2 ≤ sampleGame.rooms.length ∧
    (sampleGame.get_creature_location 0).2 ≠ sampleGame.player.current_room := by
  refine ⟨rfl, by decide, ?_⟩
  exact (C10_initial_location_distinct sampleGame 0 rfl (by decide)).1

/-! ## Projection helpers for the lazy creature-location lookup -/

/-- `get_creature_location` never changes the player. -/
theorem gcl_player (g : Game) (p : Nat) :
    (g.get_creature_location p).1.player = g.player := by
  unfold Game.get_creature_location
  rcases g.creature_room_index <;> rfl

/-- `get_creature_location` never changes the rooms. -/
theorem gcl_rooms (g : Game) (p : Nat) :
    (g.get_creature_location p).1.rooms = g.rooms := by
  unfold Game.get_creature_location
  rcases g.creature_room_index <;> rfl

/-- `get_creature_location` never changes the found-part set. -/
theorem gcl_found (g : Game) (p : Nat) :
    (g.get_creature_location p).1.found_parts = g.found_parts := by
  unfold Game.get_creature_location
  rcases g.creature_room_index <;> rfl

/-- `get_creature_location` never changes the secret-spawn flag. -/
theorem gcl_flag (g : Game) (p : Nat) :
    (g.get_creature_location p).1.secret_key_spawned = g.secret_key_spawned := by
  unfold Game.get_creature_location
  rcases g.creature_room_index <;> rfl

/-- `get_creature_location` never changes the start room. -/
theorem gcl_start (g : Game) (p : Nat) :
    (g.get_creature_location p).1.start_room = g.start_room := by
  unfold Game.get_creature_location
  rcases g.creature_room_index <;> rfl

/-- `get_creature_location` never changes the creature record. -/
theorem gcl_creature (g : Game) (p : Nat) :
    (g.get_creature_location p).1.creature = g.creature := by
  unfold Game.get_creature_location
  rcases g.creature_room_index <;> rfl

/-! ## C5 -/

/-- C5: a Stunner's remaining-uses counter never becomes negative, a
use attempt on a usable Stunner decrements it (and only then), and an
`attempt_stun` on a durability-1 Stunner removes it from the inventory
— whichever way the stun roll comes out, since both branches erase a
depleted item. -/
theorem C5_stunner_durability :
    (∀ s : StunItem, 0 ≤ s.durability → 0 ≤ (s.use).1.durability) ∧
    (∀ s : StunItem, 0 < s.durability →
      s.use = ({ s with durability := s.durability - 1 }, true)) ∧
    (∀ s : StunItem, s.durability ≤ 0 → s.use = (s, false)) ∧
    (∀ (g : Game) (i : Nat) (s : StunItem) (d20 d6 : Int) (lp ip : Nat),
      g.player.inventory.getD i (.generic "" "") = .stun s →
      s.durability = 1 →
      (g.attempt_stun i d20 d6 lp ip).1.player.inventory =
        g.player.inventory.eraseIdx i) := by
  refine ⟨?_, ?_, ?_, ?_⟩
  · intro s h
    unfold StunItem.use
    split <;> simp <;> omega
  · intro s h
    unfold StunItem.use
    split
    · omega
    · rfl
  · intro s h
    unfold StunItem.use
    split
    · rfl
    · omega
  · intro g i s d20 d6 lp ip hitem hdur
    have huse : s.use = ({ s with durability := 0 }, true) := by
      unfold StunItem.use
      rw [hdur]
      norm_num
    unfold Game.attempt_stun
    rw [hitem]
    dsimp only
    rw [huse]
    simp only [Bool.not_true, Bool.false_eq_true, if_false, le_refl, if_true]
    split
    · split
      · split
        · rw [gcl_player]
          exact eraseIdx_set _ _ _
        · dsimp only
          rw [gcl_player]
          exact eraseIdx_set _ _ _
      · exact eraseIdx_set _ _ _
    · exact eraseIdx_set _ _ _

/-- Witness for C5: a Rock with durability 1 in `stunGame` is removed
by one (here successful) stun attempt. -/
theorem C5_witness :
    stunGame.player.inventory.getD 0 (.generic "" "") =
      .stun { name := "Rock", desc := "A crude rock found in the yard.", strength := 3, durability := 1 } ∧
    (stunGame.attempt_stun 0 20 1 0 0).1.player.inventory = [] := by
  constructor
  · rfl
  · rw [(C5_stunner_durability.2.2.2) stunGame 0
      { name := "Rock", desc := "A crude rock found in the yard.", strength := 3, durability := 1 }
      20 1 0 0 rfl rfl]
    rfl

/-! ## C7 -/

/-- C7: the three HP-writing operations keep `0 ≤ hp ≤ max_hp`.
An ordinary attack and the pounce never raise HP; the health-potion
path of `action_use_item` raises HP by `3 + d4` clamped to `max_hp`. -/
theorem C7_hp_bounds :
    (∀ (c : Creature) (p : Player) (r : Int),
      0 ≤ c.attack_power → 0 ≤ r → 0 ≤ p.hp → p.hp ≤ p.max_hp →
      0 ≤ (c.attack p r).1.hp ∧ (c.attack p r).1.hp ≤ p.hp ∧
        (c.attack p r).1.hp ≤ (c.attack p r).1.max_hp) ∧
    (∀ (c : Creature) (p : Player) (res : (Creature × Player) × Int),
      0 ≤ p.hp → p.hp ≤ p.max_hp → c.special_move p = some res →
      0 ≤ res.1.2.hp ∧ res.1.2.hp ≤ p.hp ∧ res.1.2.hp ≤ res.1.2.max_hp) ∧
    (∀ (g : Game) (inp : UseInput) (idx : Nat) (n d : String),
      inp.pick = some idx → idx < g.player.inventory.length →
      g.player.inventory.getD idx (.generic "" "") = .generic n d →
      py_starts_with (py_lower n) "health" = true →
      ∃ g2, g.action_use_item inp = .ok g2 ∧
        g2.player.hp = min g.player.max_hp (g.player.hp + (3 + inp.d4)) ∧
        g2.player.max_hp = g.player.max_hp ∧
        (1 ≤ inp.d4 → 0 ≤ g.player.hp → g.player.hp ≤ g.player.max_hp →
          0 ≤ g2.player.hp ∧ g.player.hp ≤ g2.player.hp ∧
            g2.player.hp ≤ g2.player.max_hp)) := by
  refine ⟨?_, ?_, ?_⟩
  · intro c p r hap hr hhp hmax
    unfold Creature.attack
    refine ⟨?_, ?_, ?_⟩ <;> simp <;> omega
  · intro c p res hhp hmax hsm
    unfold Creature.special_move at hsm
    split at hsm
    · exact absurd hsm (by simp)
    · have h1 : (1 : Int) ≤ max 1 (c.attack_power.fdiv 2) := le_max_left _ _
      rw [Option.some_inj] at hsm
      subst hsm
      refine ⟨?_, ?_, ?_⟩ <;> simp <;> omega
  · intro g inp idx n d hpick hlt hitem hname
    have hne : g.player.inventory.isEmpty = false := by
      cases h : g.player.inventory with
      | nil => rw [h] at hlt; simp at hlt
      | cons a l => rfl
    unfold Game.action_use_item
    rw [hpick, hne]
    simp only [Bool.false_eq_true, if_false]
    rw [if_neg (by omega)]
    rw [hitem]
    dsimp only [Item.name]
    rw [hname]
    simp only [if_true]
    refine ⟨_, rfl, rfl, rfl, ?_⟩
    intro h4 h0 hm
    refine ⟨?_, ?_, ?_⟩ <;> simp <;> omega

/-- Witness for C7 on concrete attack, pounce and potion uses. -/
theorem C7_witness :
    (0 ≤ ((Creature.create 1).attack sampleGame.player 1).1.hp ∧
      ((Creature.create 1).attack sampleGame.player 1).1.hp ≤ sampleGame.player.hp ∧
      ((Creature.create 1).attack sampleGame.player 1).1.hp ≤
        ((Creature.create 1).attack sampleGame.player 1).1.max_hp) ∧
    (0 ≤ pounced.1.2.hp ∧ pounced.1.2.hp ≤ sampleGame.player.hp ∧
      pounced.1.2.hp ≤ pounced.1.2.max_hp) ∧
    (∃ g2, potionGame.action_use_item potionInput = .ok g2 ∧
      g2.player.hp = min potionGame.player.max_hp
        (potionGame.player.hp + (3 + potionInput.d4)) ∧
      g2.player.max_hp = potionGame.player.max_hp ∧
      (1 ≤ potionInput.d4 → 0 ≤ potionGame.player.hp →
        potionGame.player.hp ≤ potionGame.player.max_hp →
        0 ≤ g2.player.hp ∧ potionGame.player.hp ≤ g2.player.hp ∧
          g2.player.hp ≤ g2.player.max_hp)) := by
  refine ⟨?_, ?_, ?_⟩
  · exact C7_hp_bounds.1 (Creature.create 1) sampleGame.player 1
      (by decide) (by decide) (by decide) (by decide)
  · exact C7_hp_bounds.2.1 (Creature.create 1) sampleGame.player pounced
      (by decide) (by decide) (by decide)
  · exact C7_hp_bounds.2.2 potionGame potionInput 0
      "Health Potion" "Restores some health when used."
      rfl (by decide) rfl (by decide)

/-! ## C6 -/

/-- C6 (amended): flee succeeds iff `agility + d6 > 10 + difficulty`;
on success the player moves to an adjacent room, hiding is cleared and
the adversary follows exactly when the 60% follow event fires; a
failed roll draws an ordinary attack; with no exits the player takes
an ordinary attack and stays put regardless of the roll, but the
"nowhere to run" report occurs exactly when the roll *succeeds*. -/
theorem C6_flee_resolution :
    (∀ (g : Game) (d6 : Int) (dp : Nat) (fr : Bool) (ar : Int),
      g.player_room.adjacent ≠ [] →
      ((∃ g1, g.flee_tactic d6 dp fr ar = .escaped g1) ↔
        g.player.agility + d6 > 10 + g.creature.difficulty)) ∧
    (∀ (g : Game) (d6 : Int) (dp : Nat) (fr : Bool) (ar : Int) (g1 : Game),
      g.flee_tactic d6 dp fr ar = .escaped g1 →
      g1.player.current_room ∈ g.player_room.adjacent.map Prod.snd ∧
      g1.player.is_hiding = false ∧
      g1.player.hp = g.player.hp ∧
      (fr = true → g1.creature_room_index = some g1.player.current_room) ∧
      (fr = false → g1.creature_room_index = g.creature_room_index)) ∧
    (∀ (g : Game) (d6 : Int) (dp : Nat) (fr : Bool) (ar : Int) (g1 : Game),
      g.flee_tactic d6 dp fr ar = .failEscape g1 →
      g.player.agility + d6 ≤ 10 + g.creature.difficulty ∧
      g1.player.hp = max 0 (g.player.hp - (g.creature.attack_power + ar)) ∧
      g1.player.current_room = g.player.current_room) ∧
    (∀ (g : Game) (d6 : Int) (dp : Nat) (fr : Bool) (ar : Int),
      g.player_room.adjacent = [] →
      (g.flee_tactic d6 dp fr ar).state.player.hp =
        max 0 (g.player.hp - (g.creature.attack_power + ar)) ∧
      (g.flee_tactic d6 dp fr ar).state.player.current_room =
        g.player.current_room ∧
      ((g.flee_tactic d6 dp fr ar).isNowhere = true ↔
        g.player.agility + d6 > 10 + g.creature.difficulty)) := by
  have mapne : ∀ g : Game, g.player_room.adjacent ≠ [] →
      g.player_room.adjacent.map Prod.snd ≠ [] := by
    intro g h hm
    exact h (List.map_eq_nil_iff.mp hm)
  refine ⟨?_, ?_, ?_, ?_⟩
  · intro g d6 dp fr ar hadj
    have hie : g.player_room.adjacent.isEmpty = false := by
      cases h : g.player_room.adjacent with
      | nil => exact absurd h hadj
      | cons a l => rfl
    simp only [Game.flee_tactic, hie, Bool.false_eq_true, if_false]
    by_cases hroll : g.player.agility + d6 > 10 + g.creature.difficulty
    · rw [if_pos hroll]
      simp only [hroll, iff_true]
      cases fr <;> simp
    · rw [if_neg hroll]
      simp only [hroll, iff_false]
      rintro ⟨g1, hg1⟩
      cases hg1
  · intro g d6 dp fr ar g1 h
    simp only [Game.flee_tactic] at h
    by_cases hroll : g.player.agility + d6 > 10 + g.creature.difficulty
    · rw [if_pos hroll] at h
      by_cases hie : g.player_room.adjacent.isEmpty = true
      · rw [if_pos hie] at h
        cases h
      · rw [if_neg hie] at h
        have hadj : g.player_room.adjacent ≠ [] := by
          intro hh
          exact hie (by rw [hh]; rfl)
        cases fr with
        | false =>
          simp only [Bool.false_eq_true, if_false] at h
          injection h with h2
          subst h2
          refine ⟨pickFrom_mem _ _ _ (mapne g hadj), rfl, rfl, ?_, ?_⟩ <;> simp
        | true =>
          simp only [if_true] at h
          injection h with h2
          subst h2
          refine ⟨pickFrom_mem _ _ _ (mapne g hadj), rfl, rfl, ?_, ?_⟩ <;> simp
    · rw [if_neg hroll] at h
      cases h
  · intro g d6 dp fr ar g1 h
    simp only [Game.flee_tactic] at h
    by_cases hroll : g.player.agility + d6 > 10 + g.creature.difficulty
    · rw [if_pos hroll] at h
      by_cases hie : g.player_room.adjacent.isEmpty = true
      · rw [if_pos hie] at h
        cases h
      · rw [if_neg hie] at h
        cases fr <;> simp only [if_true, Bool.false_eq_true, if_false] at h <;> cases h
    · rw [if_neg hroll] at h
      injection h with h2
      subst h2
      exact ⟨by omega, rfl, rfl⟩
  · intro g d6 dp fr ar hadj
    have hie : g.player_room.adjacent.isEmpty = true := by
      rw [hadj]; rfl
    simp only [Game.flee_tactic, hie, if_true]
    by_cases hroll : g.player.agility + d6 > 10 + g.creature.difficulty
    · rw [if_pos hroll]
      exact ⟨rfl, rfl, by simp [FleeResult.isNowhere]; omega⟩
    · rw [if_neg hroll]
      refine ⟨rfl, rfl, ?_⟩
      simp only [FleeResult.isNowhere, Bool.false_eq_true, false_iff]
      omega

/-- Counterexample to C6 as stated: in a room with no exits, a *failed*
flee roll (Rogue agility 8, d6 = 1, difficulty 2: 9 ≤ 12) produces the
ordinary "You fail to escape" attack outcome, not the claimed
"nowhere to run" report — though the player is attacked either way. -/
theorem C6_counterexample :
    cellGame.player_room.adjacent = [] ∧
    (cellGame.flee_tactic 1 0 false 0).isNowhere = false ∧
    (cellGame.flee_tactic 1 0 false 0).state.player.hp <
      cellGame.player.hp := by
  decide

/-- Witness for C6 on concrete flee rounds in the Foyer and in the
exit-less cell. -/
theorem C6_witness :
    ((∃ g1, sampleGame.flee_tactic 10 0 false 0 = .escaped g1) ↔
      sampleGame.player.agility + 10 > 10 + sampleGame.creature.difficulty) ∧
    (fleeOkState.player.current_room ∈
        sampleGame.player_room.adjacent.map Prod.snd ∧
      fleeOkState.player.is_hiding = false ∧
      fleeOkState.player.hp = sampleGame.player.hp ∧
      (false = true → fleeOkState.creature_room_index =
        some fleeOkState.player.current_room) ∧
      (false = false → fleeOkState.creature_room_index =
        sampleGame.creature_room_index)) ∧
    (sampleGame.player.agility + 1 ≤ 10 + sampleGame.creature.difficulty ∧
      fleeFailState.player.hp =
        max 0 (sampleGame.player.hp - (sampleGame.creature.attack_power + 0)) ∧
      fleeFailState.player.current_room = sampleGame.player.current_room) ∧
    ((cellGame.flee_tactic 1 0 true 0).state.player.hp =
        max 0 (cellGame.player.hp - (cellGame.creature.attack_power + 0)) ∧
      (cellGame.flee_tactic 1 0 true 0).state.player.current_room =
        cellGame.player.current_room ∧
      ((cellGame.flee_tactic 1 0 true 0).isNowhere = true ↔
        cellGame.player.agility + 1 > 10 + cellGame.creature.difficulty)) := by
  refine ⟨?_, ?_, ?_, ?_⟩
  · exact C6_flee_resolution.1 sampleGame 10 0 false 0 (by decide)
  · exact C6_flee_resolution.2.1 sampleGame 10 0 false 0 fleeOkState (by decide)
  · exact C6_flee_resolution.2.2.1 sampleGame 1 0 false 0 fleeFailState (by decide)
  · exact C6_flee_resolution.2.2.2 cellGame 1 0 true 0 (by decide)

/-- Feeding a flee result back into the loop never changes the state it
carries. -/
theorem toOutcome_state (r : FleeResult) : r.toOutcome.state = r.state := by
  cases r with
  | escaped g => rfl
  | nowhereToRun g =>
    simp only [FleeResult.toOutcome]
    split <;> rfl
  | failEscape g =>
    simp only [FleeResult.toOutcome]
    split <;> rfl

/-- A flee result feeds back as either a loop exit or a loop
continuation, never as a quit or a crash. -/
theorem toOutcome_shape (r : FleeResult) :
    r.toOutcome = .exit r.toOutcome.state ∨ r.toOutcome = .again r.toOutcome.state := by
  cases r with
  | escaped g => exact Or.inl rfl
  | nowhereToRun g =>
    simp only [FleeResult.toOutcome]
    split
    · exact Or.inl rfl
    · exact Or.inr rfl
  | failEscape g =>
    simp only [FleeResult.toOutcome]
    split
    · exact Or.inl rfl
    · exact Or.inr rfl

/-! ## C9 -/

/-- C9 (amended): choosing Stun with no stun items, or Use Item with an
empty inventory, is rejected and control returns to tactic selection
with the state exactly unchanged; choosing Flee in a room with no
exits also returns to tactic selection (or ends the encounter at 0 HP)
— but it is *not* free: the adversary lands an ordinary attack, while
the player stays where they are. -/
theorem C9_empty_resource_guards :
    (∀ (g : Game) (cr ip : Nat) (d20 d6 : Int) (lp rp : Nat) (ar : Int),
      g.player.stun_items_idx = [] →
      g.encounter_round cr (.stun ip d20 d6 lp rp ar) = .again g) ∧
    (∀ (g : Game) (cr : Nat) (u : UseInput),
      g.player.inventory = [] →
      g.encounter_round cr (.useItem u) = .again g) ∧
    (∀ (g : Game) (cr : Nat) (d6 : Int) (dp : Nat) (fr : Bool) (ar : Int),
      g.player_room.adjacent = [] →
      (g.encounter_round cr (.flee d6 dp fr ar)).state.player.hp =
        max 0 (g.player.hp - (g.creature.attack_power + ar)) ∧
      (g.encounter_round cr (.flee d6 dp fr ar)).state.player.current_room =
        g.player.current_room ∧
      (g.encounter_round cr (.flee d6 dp fr ar) =
          .again ((g.encounter_round cr (.flee d6 dp fr ar)).state) ∨
        g.encounter_round cr (.flee d6 dp fr ar) =
          .exit ((g.encounter_round cr (.flee d6 dp fr ar)).state))) := by
  refine ⟨?_, ?_, ?_⟩
  · intro g cr ip d20 d6 lp rp ar h
    unfold Game.encounter_round Game.stun_tactic
    rw [h]
    rfl
  · intro g cr u h
    unfold Game.encounter_round Game.action_use_item
    rw [h]
    rfl
  · intro g cr d6 dp fr ar hadj
    have hie : g.player_room.adjacent.isEmpty = true := by
      rw [hadj]; rfl
    have hround : g.encounter_round cr (.flee d6 dp fr ar) =
        (g.flee_tactic d6 dp fr ar).toOutcome := rfl
    have hstate : (g.encounter_round cr (.flee d6 dp fr ar)).state =
        (g.flee_tactic d6 dp fr ar).state := by
      rw [hround, toOutcome_state]
    have hflee : (g.flee_tactic d6 dp fr ar).state.player.hp =
        max 0 (g.player.hp - (g.creature.attack_power + ar)) ∧
        (g.flee_tactic d6 dp fr ar).state.player.current_room =
          g.player.current_room := by
      simp only [Game.flee_tactic, hie, if_true]
      by_cases hroll : g.player.agility + d6 > 10 + g.creature.difficulty
      · rw [if_pos hroll]
        exact ⟨rfl, rfl⟩
      · rw [if_neg hroll]
        exact ⟨rfl, rfl⟩
    refine ⟨by rw [hstate]; exact hflee.1, by rw [hstate]; exact hflee.2, ?_⟩
    rw [hround]
    exact Or.symm (toOutcome_shape _)

/-- Counterexample to C9 as stated: in a room with no exits the Flee
tactic is *not* cost-free — the encounter round leaves the player with
strictly less HP. -/
theorem C9_counterexample :
    cellGame.player_room.adjacent = [] ∧
    (cellGame.encounter_round 0 (.flee 1 0 false 0)).state.player.hp <
      cellGame.player.hp := by
  decide

/-- Witness for C9: the sample player has no items at all, so Stun and
Use Item bounce back without change; in the cell, a flee round costs an
ordinary attack. -/
theorem C9_witness :
    sampleGame.encounter_round 0 (.stun 0 5 1 0 0 0) = .again sampleGame ∧
    sampleGame.encounter_round 0 (.useItem potionInput) = .again sampleGame ∧
    ((cellGame.encounter_round 0 (.flee 2 0 false 1)).state.player.hp =
        max 0 (cellGame.player.hp - (cellGame.creature.attack_power + 1)) ∧
      (cellGame.encounter_round 0 (.flee 2 0 false 1)).state.player.current_room =
        cellGame.player.current_room ∧
      (cellGame.encounter_round 0 (.flee 2 0 false 1) =
          .again ((cellGame.encounter_round 0 (.flee 2 0 false 1)).state) ∨
        cellGame.encounter_round 0 (.flee 2 0 false 1) =
          .exit ((cellGame.encounter_round 0 (.flee 2 0 false 1)).state))) := by
  refine ⟨?_, ?_, ?_⟩
  · exact C9_empty_resource_guards.1 sampleGame 0 0 5 1 0 0 0 rfl
  · exact C9_empty_resource_guards.2.1 sampleGame 0 potionInput rfl
  · exact C9_empty_resource_guards.2.2 cellGame 0 2 0 false 1 rfl

/-! ## C3 -/

/-- Core behaviour of `attempt_stun` on a usable stun item at inventory
index `i`: the success bit is exactly the roll comparison, the attempt
itself never touches HP, the reported durability is the decremented
one, and the creature is relocated only on a success that triggers the
long-stun condition. -/
theorem attempt_stun_spec (g : Game) (i : Nat) (s : StunItem) (d20 d6 : Int)
    (lp ip : Nat)
    (hitem : g.player.inventory.getD i (.generic "" "") = .stun s)
    (hdur : 0 < s.durability) :
    (g.attempt_stun i d20 d6 lp ip).2.1 =
      decide (d20 + s.strength + g.player.strength.fdiv 2 ≥
        12 + g.creature.difficulty * 3 + d6) ∧
    (g.attempt_stun i d20 d6 lp ip).1.player.hp = g.player.hp ∧
    (g.attempt_stun i d20 d6 lp ip).2.2 = s.durability - 1 ∧
    (¬ d20 + s.strength + g.player.strength.fdiv 2 ≥
        12 + g.creature.difficulty * 3 + d6 →
      (g.attempt_stun i d20 d6 lp ip).1.creature_room_index =
        g.creature_room_index) ∧
    (¬ (d20 + s.strength + g.player.strength.fdiv 2 ≥
          12 + g.creature.difficulty * 3 + d6 + 8 ∨ g.player.magic > 6) →
      (g.attempt_stun i d20 d6 lp ip).1.creature_room_index =
        g.creature_room_index) := by
  have huse : s.use = ({ s with durability := s.durability - 1 }, true) := by
    unfold StunItem.use
    rw [if_neg (by omega)]
  unfold Game.attempt_stun
  rw [hitem]
  dsimp only
  rw [huse]
  simp only [Bool.not_true, Bool.false_eq_true, if_false]
  by_cases hwin : d20 + s.strength + g.player.strength.fdiv 2 ≥
      12 + g.creature.difficulty * 3 + d6
  · rw [if_pos hwin]
    by_cases hlong : d20 + s.strength + g.player.strength.fdiv 2 ≥
        12 + g.creature.difficulty * 3 + d6 + 8 ∨ g.player.magic > 6
    · refine ⟨by simp [hwin], ?_, rfl, fun hc => absurd hwin hc, fun hc => absurd hlong hc⟩
      rw [if_pos hlong]
      split <;> split <;> simp [gcl_player]
    · rw [if_neg hlong]
      refine ⟨by simp [hwin], ?_, rfl, fun hc => absurd hwin hc, fun _ => ?_⟩ <;>
        split <;> rfl
  · rw [if_neg hwin]
    refine ⟨by simp [hwin], ?_, rfl, fun _ => ?_, fun _ => ?_⟩ <;> split <;> rfl

/-- `attempt_stun` only ever touches the inventory and the creature's
room index: rooms, creature record, progression state, HP and position
are untouched, whatever the item and outcome. -/
theorem attempt_stun_frame (g : Game) (i : Nat) (d20 d6 : Int) (lp ip : Nat) :
    (g.attempt_stun i d20 d6 lp ip).1.rooms = g.rooms ∧
    (g.attempt_stun i d20 d6 lp ip).1.start_room = g.start_room ∧
    (g.attempt_stun i d20 d6 lp ip).1.creature = g.creature ∧
    (g.attempt_stun i d20 d6 lp ip).1.found_parts = g.found_parts ∧
    (g.attempt_stun i d20 d6 lp ip).1.secret_key_spawned = g.secret_key_spawned ∧
    (g.attempt_stun i d20 d6 lp ip).1.player.key_parts = g.player.key_parts ∧
    (g.attempt_stun i d20 d6 lp ip).1.player.hp = g.player.hp ∧
    (g.attempt_stun i d20 d6 lp ip).1.player.current_room =
      g.player.current_room := by
  unfold Game.attempt_stun
  rcases hitem : g.player.inventory.getD i (Item.generic "" "") with ⟨n, d⟩ | s | ⟨pid, ds, bs⟩
  · exact ⟨rfl, rfl, rfl, rfl, rfl, rfl, rfl, rfl⟩
  · dsimp only
    rcases huse : s.use with ⟨s', usable⟩
    dsimp only
    cases usable
    · simp
    · simp only [Bool.not_true, Bool.false_eq_true, if_false]
      by_cases hwin : 12 + g.creature.difficulty * 3 + d6 ≤
          d20 + s'.strength + g.player.strength.fdiv 2
      · rw [if_pos hwin]
        by_cases hlong : 12 + g.creature.difficulty * 3 + d6 + 8 ≤
            d20 + s'.strength + g.player.strength.fdiv 2 ∨ 6 < g.player.magic
        · rw [if_pos hlong]
          refine ⟨?_, ?_, ?_, ?_, ?_, ?_, ?_, ?_⟩ <;> split <;> split <;>
            simp [gcl_rooms, gcl_start, gcl_creature, gcl_found, gcl_flag, gcl_player]
        · rw [if_neg hlong]
          refine ⟨?_, ?_, ?_, ?_, ?_, ?_, ?_, ?_⟩ <;> split <;> rfl
      · rw [if_neg hwin]
        refine ⟨?_, ?_, ?_, ?_, ?_, ?_, ?_, ?_⟩ <;> split <;> rfl
  · exact ⟨rfl, rfl, rfl, rfl, rfl, rfl, rfl, rfl⟩

/-- Full characterization of a *successful* `attempt_stun` on a usable
item: the result state is the original game with the item decremented
in place (erased once depleted) and with the creature index possibly
moved by the long-stun branch; notably the player and the rooms depend
on neither the long-stun condition nor `lp`. -/
theorem attempt_stun_success_player (g : Game) (i : Nat) (s : StunItem)
    (d20 d6 : Int) (lp ip : Nat)
    (hitem : g.player.inventory.getD i (.generic "" "") = .stun s)
    (hdur : 0 < s.durability)
    (hwin : d20 + s.strength + g.player.strength.fdiv 2 ≥
      12 + g.creature.difficulty * 3 + d6) :
    (g.attempt_stun i d20 d6 lp ip).1.player =
      { g.player with inventory := if s.durability - 1 ≤ 0 then g.player.inventory.eraseIdx i else g.player.inventory.set i (.stun { s with durability := s.durability - 1 }) } := by
  have huse : s.use = ({ s with durability := s.durability - 1 }, true) := by
    unfold StunItem.use
    rw [if_neg (by omega)]
  unfold Game.attempt_stun
  rw [hitem]
  dsimp only
  rw [huse]
  simp only [Bool.not_true, Bool.false_eq_true, if_false]
  rw [if_pos hwin]
  split
  · split
    · split <;> simp [gcl_player, eraseIdx_set]
    · simp [eraseIdx_set]
  · split
    · split <;> simp [gcl_player]
    · rfl

/-- C3 (amended): a stun attempt on a usable Stunner succeeds iff
`d20 + strength + player.strength // 2 ≥ 12 + difficulty*3 + d6`.
Via the encounter Stun tactic every success ends the round with the
adversary relocated to a random adjacent room of the captured creature
room — an explicit result state in which neither the long-stun margin,
player magic, nor the long-stun pick appears — and a failed tactic
draws an ordinary attack without relocation.  A stun fired through Use
Item, however, leaves the adversary exactly where it was whenever the
long-stun condition (margin ≥ 8 or magic > 6) fails — even on success
— and a failure there draws no attack. -/
theorem C3_stun_resolution :
    (∀ (g : Game) (i : Nat) (s : StunItem) (d20 d6 : Int) (lp ip : Nat),
      g.player.inventory.getD i (.generic "" "") = .stun s →
      0 < s.durability →
      ((g.attempt_stun i d20 d6 lp ip).2.1 = true ↔
        d20 + s.strength + g.player.strength.fdiv 2 ≥
          12 + g.creature.difficulty * 3 + d6)) ∧
    (∀ (g : Game) (cr ipk : Nat) (d20 d6 : Int) (lp rp : Nat) (ar : Int)
        (i : Nat) (s : StunItem),
      pickFrom g.player.stun_items_idx (0, { name := "", desc := "", strength := 0, durability := 0 }) ipk = (i, s) →
      g.player.stun_items_idx ≠ [] →
      g.player.inventory.getD i (.generic "" "") = .stun s →
      0 < s.durability →
      d20 + s.strength + g.player.strength.fdiv 2 ≥
        12 + g.creature.difficulty * 3 + d6 →
      (g.room_at cr).adjacent ≠ [] →
      g.stun_tactic cr ipk d20 d6 lp rp ar =
        .exit { g with
          player := { g.player with inventory := if s.durability - 1 ≤ 0 then g.player.inventory.eraseIdx i else g.player.inventory.set i (.stun { s with durability := s.durability - 1 }) }
          creature_room_index := some (pickFrom ((g.room_at cr).adjacent.map Prod.snd) 0 rp) } ∧
      pickFrom ((g.room_at cr).adjacent.map Prod.snd) 0 rp ∈
        (g.room_at cr).adjacent.map Prod.snd) ∧
    (∀ (g : Game) (cr ipk : Nat) (d20 d6 : Int) (lp rp : Nat) (ar : Int)
        (i : Nat) (s : StunItem),
      pickFrom g.player.stun_items_idx (0, { name := "", desc := "", strength := 0, durability := 0 }) ipk = (i, s) →
      g.player.stun_items_idx ≠ [] →
      g.player.inventory.getD i (.generic "" "") = .stun s →
      0 < s.durability →
      ¬ d20 + s.strength + g.player.strength.fdiv 2 ≥
        12 + g.creature.difficulty * 3 + d6 →
      (g.stun_tactic cr ipk d20 d6 lp rp ar).state.player.hp =
        max 0 (g.player.hp - (g.creature.attack_power + ar)) ∧
      (g.stun_tactic cr ipk d20 d6 lp rp ar).state.creature_room_index =
        g.creature_room_index) ∧
    (∀ (g : Game) (u : UseInput) (idx : Nat) (s : StunItem) (j : Nat),
      u.pick = some idx → idx < g.player.inventory.length →
      g.player.inventory.getD idx (.generic "" "") = .stun s →
      2 ≤ s.durability →
      g.creature_room_index = some j →
      g.player.current_room = j →
      ¬ (u.d20 + s.strength + g.player.strength.fdiv 2 ≥
          12 + g.creature.difficulty * 3 + u.d6 + 8 ∨ 6 < g.player.magic) →
      ∃ G, g.action_use_item u = .ok G ∧
        G.creature_room_index = g.creature_room_index ∧
        G.player.hp = g.player.hp) := by
  refine ⟨?_, ?_, ?_, ?_⟩
  · intro g i s d20 d6 lp ip hitem hdur
    rw [(attempt_stun_spec g i s d20 d6 lp ip hitem hdur).1]
    simp
  · intro g cr ipk d20 d6 lp rp ar i s hpick hne hitem hdur hwin hadj
    have hie : g.player.stun_items_idx.isEmpty = false := by
      cases h : g.player.stun_items_idx with
      | nil => exact absurd h hne
      | cons a l => rfl
    have hframe := attempt_stun_frame g i d20 d6 lp 0
    have hsucc : (g.attempt_stun i d20 d6 lp 0).2.1 = true := by
      rw [(attempt_stun_spec g i s d20 d6 lp 0 hitem hdur).1]
      exact decide_eq_true hwin
    have hroom : (g.attempt_stun i d20 d6 lp 0).1.room_at cr = g.room_at cr := by
      unfold Game.room_at
      rw [hframe.1]
    have hie2 : ((g.attempt_stun i d20 d6 lp 0).1.room_at cr).adjacent.isEmpty = false := by
      rw [hroom]
      cases h : (g.room_at cr).adjacent with
      | nil => exact absurd h hadj
      | cons a l => rfl
    simp only [Game.stun_tactic, hie, Bool.false_eq_true, if_false]
    rw [hpick]
    dsimp only
    rw [hsucc]
    simp only [if_true, hie2, Bool.false_eq_true, if_false]
    constructor
    · rw [hroom]
      congr 1
      have hp := attempt_stun_success_player g i s d20 d6 lp 0 hitem hdur hwin
      cases hgame : (g.attempt_stun i d20 d6 lp 0).1
      rw [hgame] at hframe hp
      simp only at hframe hp ⊢
      rw [hframe.1, hframe.2.1, hframe.2.2.1, hframe.2.2.2.1, hframe.2.2.2.2.1, hp]
    · apply pickFrom_mem
      intro hm
      exact hadj (List.map_eq_nil_iff.mp hm)
  · intro g cr ipk d20 d6 lp rp ar i s hpick hne hitem hdur hfail
    have hie : g.player.stun_items_idx.isEmpty = false := by
      cases h : g.player.stun_items_idx with
      | nil => exact absurd h hne
      | cons a l => rfl
    have hspec := attempt_stun_spec g i s d20 d6 lp 0 hitem hdur
    have hframe := attempt_stun_frame g i d20 d6 lp 0
    have hfailbit : (g.attempt_stun i d20 d6 lp 0).2.1 = false := by
      rw [hspec.1]
      exact decide_eq_false hfail
    simp only [Game.stun_tactic, hie, Bool.false_eq_true, if_false]
    rw [hpick]
    dsimp only
    rw [hfailbit]
    simp only [Bool.false_eq_true, if_false]
    constructor
    · split <;>
        simp [TacticOutcome.state, Creature.attack, hframe.2.2.1, hspec.2.1]
    · split <;>
        simp [TacticOutcome.state, Creature.attack, hspec.2.2.2.1 hfail]
  · intro g u idx s j hpick hlt hitem hdur hcri hloc hnolong
    have hne : g.player.inventory.isEmpty = false := by
      cases h : g.player.inventory with
      | nil => rw [h] at hlt; simp at hlt
      | cons a l => rfl
    have hspec := attempt_stun_spec g idx s u.d20 u.d6 u.longPick u.initPick hitem (by omega)
    have hdurres : (g.attempt_stun idx u.d20 u.d6 u.longPick u.initPick).2.2 =
        s.durability - 1 := hspec.2.2.1
    unfold Game.action_use_item
    rw [hpick, hne]
    simp only [Bool.false_eq_true, if_false]
    rw [if_neg (by omega)]
    rw [hitem]
    dsimp only
    have hgcl : g.get_creature_location u.initPick = (g, j) := by
      unfold Game.get_creature_location
      rw [hcri]
    rw [hgcl]
    dsimp only
    rw [if_pos hloc]
    rw [if_neg (by rw [hdurres]; omega)]
    refine ⟨_, rfl, ?_, hspec.2.1⟩
    rw [hspec.2.2.2.2 hnolong]

/-- Counterexample to C3 as stated: firing the Stun Spray through Use
Item while co-located in the Foyer *succeeds* (roll 16 vs defense 16),
relocation would be possible (the Foyer has an exit), yet the adversary
is not relocated, because the margin is below 8 and the Warrior's
magic is 2. -/
theorem C3_counterexample :
    (sprayGame.attempt_stun 0 3 1 0 0).2.1 = true ∧
    sprayGame.player.current_room = 0 ∧
    sprayGame.creature_room_index = some 0 ∧
    (sprayGame.room_at 0).adjacent ≠ [] ∧
    useOk (sprayGame.action_use_item sprayInput) = true ∧
    (useResultState (sprayGame.action_use_item sprayInput)).creature_room_index =
      sprayGame.creature_room_index := by
  decide

/-- Witness for C3 on concrete stun rounds: a successful and a failed
Rock stun through the encounter tactic, and a successful Stun Spray
through Use Item that leaves the adversary in place. -/
theorem C3_witness :
    ((stunGame.attempt_stun 0 20 1 0 0).2.1 = true ↔
      20 + rockItem.strength + stunGame.player.strength.fdiv 2 ≥
        12 + stunGame.creature.difficulty * 3 + 1) ∧
    (stunGame.stun_tactic 0 0 20 1 0 0 0 =
      .exit { stunGame with
        player := { stunGame.player with inventory := if rockItem.durability - 1 ≤ 0 then stunGame.player.inventory.eraseIdx 0 else stunGame.player.inventory.set 0 (.stun { rockItem with durability := rockItem.durability - 1 }) }
        creature_room_index := some (pickFrom ((stunGame.room_at 0).adjacent.map Prod.snd) 0 0) } ∧
      pickFrom ((stunGame.room_at 0).adjacent.map Prod.snd) 0 0 ∈
        (stunGame.room_at 0).adjacent.map Prod.snd) ∧
    ((stunGame.stun_tactic 0 0 1 1 0 0 0).state.player.hp =
        max 0 (stunGame.player.hp - (stunGame.creature.attack_power + 0)) ∧
      (stunGame.stun_tactic 0 0 1 1 0 0 0).state.creature_room_index =
        stunGame.creature_room_index) ∧
    (∃ G, sprayGame.action_use_item sprayInput = .ok G ∧
      G.creature_room_index = sprayGame.creature_room_index ∧
      G.player.hp = sprayGame.player.hp) := by
  refine ⟨?_, ?_, ?_, ?_⟩
  · exact C3_stun_resolution.1 stunGame 0 rockItem 20 1 0 0 rfl (by decide)
  · exact C3_stun_resolution.2.1 stunGame 0 0 20 1 0 0 0 0 rockItem rfl
      (by decide) rfl (by decide) (by decide) (by decide)
  · exact C3_stun_resolution.2.2.1 stunGame 0 0 1 1 0 0 0 0 rockItem rfl
      (by decide) rfl (by decide) (by decide)
  · exact C3_stun_resolution.2.2.2 sprayGame sprayInput 0 sprayItem 0 rfl
      (by decide) rfl (by decide) rfl rfl (by decide)

/-! ## State-evolution lemmas for the turn loop -/

/-- `List.getD` after `set` at a different index. -/
theorem getD_set_ne (l : List α) (i j : Nat) (a d : α) (h : j ≠ i) :
    (l.set i a).getD j d = l.getD j d := by
  induction l generalizing i j with
  | nil => simp
  | cons x xs ih =>
    cases i with
    | zero =>
      cases j with
      | zero => exact absurd rfl h
      | succ jj => simp
    | succ ii =>
      cases j with
      | zero => simp
      | succ jj => simpa using ih ii jj (by omega)

/-- `List.getD` after `set` at the same, in-range index. -/
theorem getD_set_self (l : List α) (i : Nat) (a d : α) (h : i < l.length) :
    (l.set i a).getD i d = a := by
  induction l generalizing i with
  | nil => simp at h
  | cons x xs ih =>
    cases i with
    | zero => simp
    | succ ii => simpa using ih ii (by simpa using h)

/-- Setting an out-of-range index is a no-op. -/
theorem set_oob (l : List α) (i : Nat) (a : α) (h : l.length ≤ i) :
    l.set i a = l := by
  induction l generalizing i with
  | nil => simp
  | cons x xs ih =>
    cases i with
    | zero => simp at h
    | succ ii => simpa using ih ii (by simpa using h)

/-- `PhaseEvo` is reflexive. -/
theorem phaseEvo_refl (g : Game) : PhaseEvo g g :=
  ⟨⟨[], (List.append_nil _).symm⟩, rfl, rfl, rfl, fun _ h => h⟩

/-- `PhaseEvo` composes. -/
theorem phaseEvo_trans {g1 g2 g3 : Game}
    (h12 : PhaseEvo g1 g2) (h23 : PhaseEvo g2 g3) : PhaseEvo g1 g3 := by
  obtain ⟨⟨l1, hk1⟩, hf1, hs1, hl1, hr1⟩ := h12
  obtain ⟨⟨l2, hk2⟩, hf2, hs2, hl2, hr2⟩ := h23
  exact ⟨⟨l1 ++ l2, by rw [hk2, hk1, List.append_assoc]⟩,
    hf2.trans hf1, hs2.trans hs1, hl2.trans hl1, fun i h => hr2 i (hr1 i h)⟩

/-- A state differing only in `creature_room_index` evolves trivially. -/
theorem phaseEvo_set_index {g h : Game} (e : PhaseEvo g h) (x : Option Nat) :
    PhaseEvo g { h with creature_room_index := x } := e

/-- Replacing a room by one whose `reveal_text` is unchanged or
consumed cannot resurrect a consumed reveal anywhere. -/
theorem getD_set_reveal (rooms : List Room) (i : Nat) (r : Room)
    (hrev : r.reveal_text = (rooms.getD i dummy_room).reveal_text ∨
      r.reveal_text = none)
    (j : Nat) (hj : (rooms.getD j dummy_room).reveal_text = none) :
    ((rooms.set i r).getD j dummy_room).reveal_text = none := by
  by_cases hij : j = i
  · subst hij
    by_cases hlen : j < rooms.length
    · rw [getD_set_self _ _ _ _ hlen]
      rcases hrev with h | h
      · rw [h]; exact hj
      · exact h
    · rw [set_oob _ _ _ (by omega)]
      exact hj
  · rw [getD_set_ne _ _ _ _ _ hij]
    exact hj

/-- Replacing one room by a version with the same `reveal_text` (or a
consumed one) preserves `PhaseEvo`, keys and the rest untouched. -/
theorem phaseEvo_set_room (g : Game) (i : Nat) (r : Room)
    (hrev : r.reveal_text = (g.room_at i).reveal_text ∨ r.reveal_text = none) :
    PhaseEvo g { g with rooms := g.rooms.set i r } := by
  exact ⟨⟨[], (List.append_nil _).symm⟩, rfl, rfl, by simp,
    fun j hj => getD_set_reveal g.rooms i r hrev j hj⟩

/-- `get_creature_location` is a trivial phase. -/
theorem evo_gcl (g : Game) (p : Nat) : PhaseEvo g (g.get_creature_location p).1 := by
  unfold Game.get_creature_location
  rcases g.creature_room_index with _ | i
  · exact phaseEvo_set_index (phaseEvo_refl g) _
  · exact phaseEvo_refl g

/-- `describe_current_room` is a phase: it can only consume a reveal. -/
theorem evo_describe (g : Game) : PhaseEvo g (g.describe_current_room).1 := by
  simp only [Game.describe_current_room]
  split
  · exact phaseEvo_set_room g _ _ (Or.inr rfl)
  · exact phaseEvo_refl g

/-- `creature_tick` is a phase. -/
theorem evo_ctick (g : Game) (inp : CreatureTickInput) :
    PhaseEvo g (g.creature_tick inp) := by
  simp only [Game.creature_tick]
  split
  · split
    · exact evo_gcl g inp.initPick
    · exact phaseEvo_set_index (evo_gcl g inp.initPick) _
  · exact phaseEvo_refl g

/-- `action_move` is a phase. -/
theorem evo_move (g : Game) (pick : Nat) : PhaseEvo g (g.action_move pick) := by
  simp only [Game.action_move]
  split
  · exact phaseEvo_refl g
  · exact ⟨⟨[], (List.append_nil _).symm⟩, rfl, rfl, rfl, fun _ h => h⟩

/-- `action_search` is a phase (a key pickup appends one part id). -/
theorem evo_search (g : Game) (inp : SearchInput) :
    PhaseEvo g (g.action_search inp) := by
  simp only [Game.action_search]
  split
  · split
    · exact phaseEvo_set_room g _ _ (Or.inl rfl)
    · exact phaseEvo_refl g
  · split
    · exact phaseEvo_refl g
    · split
      · refine ⟨⟨[_], rfl⟩, rfl, rfl, by simp, fun j hj => ?_⟩
        apply getD_set_reveal
        · exact Or.inl rfl
        · exact hj
      · refine ⟨⟨[], (List.append_nil _).symm⟩, rfl, rfl, by simp, fun j hj => ?_⟩
        apply getD_set_reveal
        · exact Or.inl rfl
        · exact hj

/-- `action_hide` is a phase. -/
theorem evo_hide (g : Game) (d6 : Int) : PhaseEvo g (g.action_hide d6) := by
  simp only [Game.action_hide]
  split
  · exact ⟨⟨[], (List.append_nil _).symm⟩, rfl, rfl, rfl, fun _ h => h⟩
  · split
    · exact phaseEvo_refl g
    · split <;> split <;>
        exact ⟨⟨[], (List.append_nil _).symm⟩, rfl, rfl, rfl, fun _ h => h⟩

/-- `attempt_stun` is a phase (it only edits inventory and the
creature index). -/
theorem evo_attempt (g : Game) (i : Nat) (d20 d6 : Int) (lp ip : Nat) :
    PhaseEvo g (g.attempt_stun i d20 d6 lp ip).1 := by
  have h := attempt_stun_frame g i d20 d6 lp ip
  refine ⟨⟨[], by rw [h.2.2.2.2.2.1, List.append_nil]⟩, h.2.2.2.2.1, h.2.1, by rw [h.1], ?_⟩
  intro j hj
  unfold Game.room_at at hj ⊢
  rw [h.1]
  exact hj

/-- `action_use_item` is a phase, whichever way it returns. -/
theorem evo_use (g : Game) (u : UseInput) :
    PhaseEvo g (useResultState (g.action_use_item u)) := by
  simp only [Game.action_use_item]
  split
  · exact phaseEvo_refl g
  · split
    · exact phaseEvo_refl g
    · split
      · exact phaseEvo_refl g
      · split
        · split
          · split
            · exact phaseEvo_trans (evo_gcl g u.initPick) (evo_attempt _ _ _ _ _ _)
            · exact phaseEvo_trans (evo_gcl g u.initPick) (evo_attempt _ _ _ _ _ _)
          · exact evo_gcl g u.initPick
        · split
          · exact ⟨⟨[], (List.append_nil _).symm⟩, rfl, rfl, rfl, fun _ h => h⟩
          · exact phaseEvo_refl g

/-- The Stun tactic is a phase. -/
theorem evo_stun_tactic (g : Game) (cr ipk : Nat) (d20 d6 : Int)
    (lp rp : Nat) (ar : Int) :
    PhaseEvo g (g.stun_tactic cr ipk d20 d6 lp rp ar).state := by
  simp only [Game.stun_tactic]
  split
  · exact phaseEvo_refl g
  · split
    · split
      · exact evo_attempt g _ d20 d6 lp 0
      · exact phaseEvo_set_index (evo_attempt g _ d20 d6 lp 0) _
    · split <;>
        exact ⟨(evo_attempt g _ d20 d6 lp 0).1, (evo_attempt g _ d20 d6 lp 0).2.1,
          (evo_attempt g _ d20 d6 lp 0).2.2.1, (evo_attempt g _ d20 d6 lp 0).2.2.2.1,
          (evo_attempt g _ d20 d6 lp 0).2.2.2.2⟩

/-- The Hide tactic is a phase. -/
theorem evo_hide_tactic (g : Game) (cr : Nat) (d6 : Int)
    (lr : Bool) (lv : Nat) (ar : Int) :
    PhaseEvo g (g.hide_tactic cr d6 lr lv ar).state := by
  simp only [Game.hide_tactic]
  repeat' split
  all_goals exact ⟨⟨[], (List.append_nil _).symm⟩, rfl, rfl, rfl, fun _ h => h⟩

/-- The Flee tactic is a phase. -/
theorem evo_flee_tactic (g : Game) (d6 : Int) (dp : Nat) (fr : Bool) (ar : Int) :
    PhaseEvo g (g.flee_tactic d6 dp fr ar).state := by
  simp only [Game.flee_tactic]
  split
  · split
    · exact ⟨⟨[], (List.append_nil _).symm⟩, rfl, rfl, rfl, fun _ h => h⟩
    · split <;> exact ⟨⟨[], (List.append_nil _).symm⟩, rfl, rfl, rfl, fun _ h => h⟩
  · exact ⟨⟨[], (List.append_nil _).symm⟩, rfl, rfl, rfl, fun _ h => h⟩

/-- One engaged round is a phase. -/
theorem evo_round (g : Game) (cr : Nat) (t : TacticChoice) :
    PhaseEvo g (g.encounter_round cr t).state := by
  cases t with
  | stun ip d20 d6 lp rp ar => exact evo_stun_tactic g cr ip d20 d6 lp rp ar
  | hide d6 lr lv ar => exact evo_hide_tactic g cr d6 lr lv ar
  | flee d6 dp fr ar =>
    have h1 := toOutcome_state (g.flee_tactic d6 dp fr ar)
    have h2 := evo_flee_tactic g d6 dp fr ar
    simp only [Game.encounter_round]
    rw [h1]
    exact h2
  | useItem u =>
    have h := evo_use g u
    simp only [Game.encounter_round]
    split
    · next g1 heq =>
      rw [show g1 = useResultState (g.action_use_item u) by rw [heq]; rfl]
      exact h
    · next g1 heq =>
      rw [show g1 = useResultState (g.action_use_item u) by rw [heq]; rfl]
      exact h
  | surrender => exact phaseEvo_refl g

/-- The engaged loop is a phase. -/
theorem evo_loop (g : Game) (cr : Nat) (ts : List TacticChoice) :
    PhaseEvo g (g.encounter_loop cr ts).state := by
  induction ts generalizing g with
  | nil => exact phaseEvo_refl g
  | cons t rest ih =>
    have hr := evo_round g cr t
    simp only [Game.encounter_loop]
    split
    · next g1 heq =>
      have hs : (g.encounter_round cr t).state = g1 := by
        rw [heq]
        rfl
      rw [hs] at hr
      exact hr
    · next g1 heq =>
      have hs : (g.encounter_round cr t).state = g1 := by
        rw [heq]
        rfl
      rw [hs] at hr
      exact phaseEvo_trans hr (ih g1)
    · next g1 heq =>
      have hs : (g.encounter_round cr t).state = g1 := by
        rw [heq]
        rfl
      rw [hs] at hr
      exact hr
    · next g1 heq =>
      have hs : (g.encounter_round cr t).state = g1 := by
        rw [heq]
        rfl
      rw [hs] at hr
      exact hr

/-- A whole encounter resolution is a phase. -/
theorem evo_encounter (g : Game) (inp : EncounterInput) :
    PhaseEvo g (g.handle_encounter inp).state := by
  simp only [Game.handle_encounter]
  have hg := evo_gcl g inp.initPick
  split
  · exact hg
  · split
    · exact phaseEvo_trans hg (evo_loop _ _ _)
    · split
      · split
        · exact hg
        · exact phaseEvo_set_index hg _
      · exact hg

/-- The player-action dispatch is a phase. -/
theorem evo_player_turn (g : Game) (a : ActionInput) :
    PhaseEvo g (g.player_turn a).state := by
  cases a with
  | move p => exact evo_move g p
  | search s => exact evo_search g s
  | hide d6 => exact evo_hide g d6
  | inventory => exact phaseEvo_refl g
  | useItem u => exact evo_use g u
  | status => exact phaseEvo_refl g
  | quit c =>
    simp only [Game.player_turn]
    split <;> exact phaseEvo_refl g

/-- A state differing only in the creature record evolves trivially. -/
theorem phaseEvo_set_creature {g h : Game} (e : PhaseEvo g h) (c : Creature) :
    PhaseEvo g { h with creature := c } := e

/-- What `spawn_secret_key` does and does not touch. -/
theorem spawn_fields (g : Game) (pick : Nat) :
    (g.spawn_secret_key pick).player = g.player ∧
    (g.spawn_secret_key pick).secret_key_spawned = true ∧
    (g.spawn_secret_key pick).start_room = g.start_room ∧
    (g.spawn_secret_key pick).rooms.length = g.rooms.length ∧
    ∀ i, (g.room_at i).reveal_text = none →
      ((g.spawn_secret_key pick).room_at i).reveal_text = none := by
  refine ⟨rfl, rfl, rfl, by simp [Game.spawn_secret_key], fun j hj => ?_⟩
  apply getD_set_reveal
  · exact Or.inl rfl
  · exact hj

/-- In a world with at least two rooms the secret key lands in a room
other than the start room. -/
theorem spawn_location (g : Game) (pick : Nat) (hlen : 2 ≤ g.rooms.length) :
    ∃ i, i ≠ g.start_room ∧
      Item.keyPart 4 "A cold, ornate key that hums faintly." (BACKSTORIES 4) ∈
        ((g.spawn_secret_key pick).room_at i).items := by
  have hne : (List.range g.rooms.length).filter
      (fun i => i ≠ g.start_room) ≠ [] := by
    intro hnil
    by_cases hs : g.start_room = 0
    · have h1mem : 1 ∈ (List.range g.rooms.length).filter
          (fun i => i ≠ g.start_room) :=
        List.mem_filter.mpr ⟨List.mem_range.mpr (by omega), by simp [hs]⟩
      rw [hnil] at h1mem
      exact (List.not_mem_nil 1) h1mem
    · have h0mem : 0 ∈ (List.range g.rooms.length).filter
          (fun i => i ≠ g.start_room) :=
        List.mem_filter.mpr ⟨List.mem_range.mpr (by omega), by simp; omega⟩
      rw [hnil] at h0mem
      exact (List.not_mem_nil 0) h0mem
  have hmem := pickFrom_mem ((List.range g.rooms.length).filter
      (fun i => i ≠ g.start_room)) 0 pick hne
  have hi := (List.mem_filter.mp hmem).2
  simp only [decide_eq_true_eq] at hi
  have hilt : pickFrom ((List.range g.rooms.length).filter
      (fun i => i ≠ g.start_room)) 0 pick < g.rooms.length :=
    List.mem_range.mp (List.mem_filter.mp hmem).1
  refine ⟨_, hi, ?_⟩
  unfold Game.spawn_secret_key Game.room_at
  rw [getD_set_self _ _ _ _ hilt]
  simp

/-- The encounter step of a turn (co-location check plus resolution)
is a phase. -/
theorem evo_encounter_step (g3 : Game) (p : Nat) (enc : EncounterInput) :
    PhaseEvo g3 ((if (g3.get_creature_location p).1.player.current_room =
        (g3.get_creature_location p).2 then
        (g3.get_creature_location p).1.handle_encounter enc
      else .done (g3.get_creature_location p).1)).state := by
  split
  · exact phaseEvo_trans (evo_gcl g3 p) (evo_encounter _ enc)
  · exact evo_gcl g3 p

/-- Case analysis for the tail of one turn: either the whole tail is a
plain phase, or it ends in the secret-key spawn from a phase-evolved
state that holds all main keys with the flag still unset. -/
theorem turn_rest_cases (g : Game) (inp : TurnInput) :
    PhaseEvo g (g.turn_rest inp).state ∨
    (∃ g5, PhaseEvo g g5 ∧ g5.player.has_all_main_keys = true ∧
      g5.secret_key_spawned = false ∧
      g.turn_rest inp = .next (g5.spawn_secret_key inp.spawnPick)) := by
  have h12 : PhaseEvo g ((g.describe_current_room).1.creature_tick inp.ctick) :=
    phaseEvo_trans (evo_describe g) (evo_ctick _ inp.ctick)
  simp only [Game.turn_rest]
  split
  · next gq heq =>
    left
    have hp := evo_player_turn ((g.describe_current_room).1.creature_tick inp.ctick) inp.action
    have hs : (((g.describe_current_room).1.creature_tick inp.ctick).player_turn inp.action).state = gq := by
      rw [heq]
      rfl
    rw [hs] at hp
    exact phaseEvo_trans h12 hp
  · next g3 heq =>
    have hp := evo_player_turn ((g.describe_current_room).1.creature_tick inp.ctick) inp.action
    have hs : (((g.describe_current_room).1.creature_tick inp.ctick).player_turn inp.action).state = g3 := by
      rw [heq]
      rfl
    rw [hs] at hp
    have h3 : PhaseEvo g g3 := phaseEvo_trans h12 hp
    have henc := evo_encounter_step g3 inp.encInitPick inp.enc
    split
    · next gq heq2 =>
      left
      have hs2 : ((if (g3.get_creature_location inp.encInitPick).1.player.current_room = (g3.get_creature_location inp.encInitPick).2 then (g3.get_creature_location inp.encInitPick).1.handle_encounter inp.enc else .done (g3.get_creature_location inp.encInitPick).1)).state = gq := by
        rw [heq2]
        rfl
      rw [hs2] at henc
      exact phaseEvo_trans h3 henc
    · next gc heq2 =>
      left
      have hs2 : ((if (g3.get_creature_location inp.encInitPick).1.player.current_room = (g3.get_creature_location inp.encInitPick).2 then (g3.get_creature_location inp.encInitPick).1.handle_encounter inp.enc else .done (g3.get_creature_location inp.encInitPick).1)).state = gc := by
        rw [heq2]
        rfl
      rw [hs2] at henc
      exact phaseEvo_trans h3 henc
    · next go heq2 =>
      left
      have hs2 : ((if (g3.get_creature_location inp.encInitPick).1.player.current_room = (g3.get_creature_location inp.encInitPick).2 then (g3.get_creature_location inp.encInitPick).1.handle_encounter inp.enc else .done (g3.get_creature_location inp.encInitPick).1)).state = go := by
        rw [heq2]
        rfl
      rw [hs2] at henc
      exact phaseEvo_trans h3 henc
    · next g4 heq2 =>
      have hs2 : ((if (g3.get_creature_location inp.encInitPick).1.player.current_room = (g3.get_creature_location inp.encInitPick).2 then (g3.get_creature_location inp.encInitPick).1.handle_encounter inp.enc else .done (g3.get_creature_location inp.encInitPick).1)).state = g4 := by
        rw [heq2]
        rfl
      rw [hs2] at henc
      have h4 : PhaseEvo g g4 := phaseEvo_trans h3 henc
      have h5 : PhaseEvo g { g4 with creature := g4.creature.tick } :=
        phaseEvo_set_creature h4 _
      split
      · next hcond =>
        rw [Bool.and_eq_true, Bool.not_eq_eq_eq_not, Bool.not_true] at hcond
        split
        · right
          exact ⟨_, h5, hcond.1, hcond.2, rfl⟩
        · left
          exact h5
      · left
        exact h5

/-- The same case analysis lifted to a whole `run_turn`. -/
theorem run_turn_cases (g : Game) (inp : TurnInput) :
    PhaseEvo g (g.run_turn inp).state ∨
    (∃ g5, PhaseEvo g g5 ∧ g5.player.has_all_main_keys = true ∧
      g5.secret_key_spawned = false ∧
      g.run_turn inp = .next (g5.spawn_secret_key inp.spawnPick)) := by
  unfold Game.run_turn
  split
  · left
    exact phaseEvo_refl g
  · split
    · split
      · left
        exact phaseEvo_refl g
      · exact turn_rest_cases g inp
    · exact turn_rest_cases g inp

/-- Once set, the secret-spawn flag survives any turn. -/
theorem run_turn_flag_mono (g : Game) (inp : TurnInput)
    (h : g.secret_key_spawned = true) :
    (g.run_turn inp).state.secret_key_spawned = true := by
  rcases run_turn_cases g inp with he | ⟨g5, he, _, hflag, _⟩
  · rw [he.2.1, h]
  · rw [he.2.1] at hflag
    rw [hflag] at h
    cases h

/-- The tail of a turn never produces a win. -/
theorem turn_rest_not_won (g : Game) (inp : TurnInput) (gw : Game) :
    g.turn_rest inp ≠ .won gw := by
  intro h
  simp only [Game.turn_rest] at h
  split at h
  · cases h
  · split at h
    · cases h
    · cases h
    · cases h
    · split at h
      · split at h
        · cases h
        · cases h
      · cases h

/-- The collected key parts only grow across a turn. -/
theorem run_turn_keys_mono (g : Game) (inp : TurnInput) :
    ∃ l, (g.run_turn inp).state.player.key_parts = g.player.key_parts ++ l := by
  rcases run_turn_cases g inp with he | ⟨g5, he, _, _, heq⟩
  · exact he.1
  · have hs : (g.run_turn inp).state = g5.spawn_secret_key inp.spawnPick := by
      rw [heq]
      rfl
    rw [hs, (spawn_fields g5 inp.spawnPick).1]
    exact he.1

/-- A consumed reveal text stays consumed across a turn. -/
theorem run_turn_reveal_mono (g : Game) (inp : TurnInput) (i : Nat)
    (h : (g.room_at i).reveal_text = none) :
    ((g.run_turn inp).state.room_at i).reveal_text = none := by
  rcases run_turn_cases g inp with he | ⟨g5, he, _, _, heq⟩
  · exact he.2.2.2.2 i h
  · have hs : (g.run_turn inp).state = g5.spawn_secret_key inp.spawnPick := by
      rw [heq]
      rfl
    rw [hs]
    exact (spawn_fields g5 inp.spawnPick).2.2.2.2 i (he.2.2.2.2 i h)

/-- A trace that starts with the flag already set has no flips. -/
theorem run_states_flag (g : Game) (is : List TurnInput)
    (h : g.secret_key_spawned = true) :
    spawn_flips (g :: g.run_states is) = 0 := by
  induction is generalizing g with
  | nil => rfl
  | cons i rest ih =>
    simp only [Game.run_states]
    split
    · next g1 heq =>
      have h1 : g1.secret_key_spawned = true := by
        have := run_turn_flag_mono g i h
        rw [heq] at this
        exact this
      simp only [spawn_flips, h, Bool.not_true, Bool.false_and,
        Bool.false_eq_true, if_false, Nat.zero_add]
      exact ih g1 h1
    all_goals
      next g1 heq =>
        simp [spawn_flips, h]

/-- Along any driven trace, the spawn flag flips at most once. -/
theorem spawn_at_most_once (g : Game) (is : List TurnInput) :
    spawn_flips (g :: g.run_states is) ≤ 1 := by
  induction is generalizing g with
  | nil => simp [Game.run_states, spawn_flips]
  | cons i rest ih =>
    by_cases hflag : g.secret_key_spawned = true
    · rw [run_states_flag g (i :: rest) hflag]
      omega
    · rw [Bool.not_eq_true] at hflag
      simp only [Game.run_states]
      split
      · next g1 heq =>
        by_cases h1 : g1.secret_key_spawned = true
        · have h0 := run_states_flag g1 rest h1
          simp only [spawn_flips]
          rw [h0]
          split <;> omega
        · rw [Bool.not_eq_true] at h1
          simp only [spawn_flips, h1, Bool.and_false, Bool.false_eq_true,
            if_false, Nat.zero_add]
          exact ih g1
      all_goals
        next g1 heq =>
          cases hg1 : g1.secret_key_spawned <;>
            simp [spawn_flips, hflag, hg1]

/-- If a turn flips the spawn flag, the player holds all three main
keys at the end of that turn and the fresh fragment 4 sits in a room
other than the start room (granted at least two rooms). -/
theorem run_turn_flip (g : Game) (inp : TurnInput)
    (h0 : g.secret_key_spawned = false)
    (h1 : (g.run_turn inp).state.secret_key_spawned = true) :
    (g.run_turn inp).state.player.has_all_main_keys = true ∧
    (2 ≤ g.rooms.length →
      ∃ i, i ≠ (g.run_turn inp).state.start_room ∧
        Item.keyPart 4 "A cold, ornate key that hums faintly." (BACKSTORIES 4) ∈
          ((g.run_turn inp).state.room_at i).items) := by
  rcases run_turn_cases g inp with he | ⟨g5, he, hkeys, hflag, heq⟩
  · rw [he.2.1, h0] at h1
    cases h1
  · have hs : (g.run_turn inp).state = g5.spawn_secret_key inp.spawnPick := by
      rw [heq]
      rfl
    constructor
    · rw [hs, (spawn_fields g5 inp.spawnPick).1]
      exact hkeys
    · intro hlen
      have hlen5 : 2 ≤ g5.rooms.length := by
        rw [he.2.2.2.1]
        exact hlen
      obtain ⟨i, hi, hmem⟩ := spawn_location g5 inp.spawnPick hlen5
      refine ⟨i, ?_, ?_⟩
      · rw [hs, (spawn_fields g5 inp.spawnPick).2.2.1, he.2.2.1]
        rw [he.2.2.1] at hi
        exact hi
      · rw [hs]
        exact hmem

/-- With the flag already set, the tail of a turn ignores the spawn
inputs entirely. -/
theorem turn_rest_spawn_irrelevant (g : Game) (inp : TurnInput) (b : Bool) (p : Nat)
    (h : g.secret_key_spawned = true) :
    g.turn_rest { inp with spawnRoll := b, spawnPick := p } = g.turn_rest inp := by
  simp only [Game.turn_rest]
  split
  · rfl
  · next g3 heq =>
    have h12 : PhaseEvo g ((g.describe_current_room).1.creature_tick inp.ctick) :=
      phaseEvo_trans (evo_describe g) (evo_ctick _ inp.ctick)
    have hp := evo_player_turn ((g.describe_current_room).1.creature_tick inp.ctick) inp.action
    have hs : (((g.describe_current_room).1.creature_tick inp.ctick).player_turn inp.action).state = g3 := by
      rw [heq]
      rfl
    rw [hs] at hp
    have h3 : PhaseEvo g g3 := phaseEvo_trans h12 hp
    split
    · rfl
    · rfl
    · rfl
    · next g4 heq2 =>
      have henc := evo_encounter_step g3 inp.encInitPick inp.enc
      have hs2 : ((if (g3.get_creature_location inp.encInitPick).1.player.current_room = (g3.get_creature_location inp.encInitPick).2 then (g3.get_creature_location inp.encInitPick).1.handle_encounter inp.enc else .done (g3.get_creature_location inp.encInitPick).1)).state = g4 := by
        rw [heq2]
        rfl
      rw [hs2] at henc
      have h4 : PhaseEvo g g4 := phaseEvo_trans h3 henc
      have hflag : g4.secret_key_spawned = true := by
        rw [h4.2.1]
        exact h
      have hcond : (({ g4 with creature := g4.creature.tick } : Game).player.has_all_main_keys &&
          !({ g4 with creature := g4.creature.tick } : Game).secret_key_spawned) = false := by
        have hweak : ({ g4 with creature := g4.creature.tick } : Game).secret_key_spawned = true := hflag
        rw [hweak]
        simp
      simp only [hcond, Bool.false_eq_true, if_false]

/-- With the flag already set, a whole turn ignores the spawn inputs. -/
theorem run_turn_spawn_irrelevant (g : Game) (inp : TurnInput) (b : Bool) (p : Nat)
    (h : g.secret_key_spawned = true) :
    g.run_turn { inp with spawnRoll := b, spawnPick := p } = g.run_turn inp := by
  unfold Game.run_turn
  split
  · rfl
  · split
    · dsimp only
      split
      · rfl
      · exact turn_rest_spawn_irrelevant g inp b p h
    · exact turn_rest_spawn_irrelevant g inp b p h

/-! ## C1 -/

/-- C1: a turn can end in a win only from the top-of-loop escape
prompt — all three main fragments held, player standing in the start
room, and the explicit escape confirmation — and the winning state is
exactly the state at the prompt (nothing is consumed).  Declining the
prompt can never win that turn, and the collected fragments never
shrink across any turn. -/
theorem C1_win_gate :
    (∀ (g : Game) (inp : TurnInput) (gw : Game),
      g.run_turn inp = .won gw →
      g.player.has_all_main_keys = true ∧
      g.player.current_room = g.start_room ∧
      inp.escape = true ∧ gw = g) ∧
    (∀ (g : Game) (inp : TurnInput),
      inp.escape = false → ∀ gw, g.run_turn inp ≠ .won gw) ∧
    (∀ (g : Game) (inp : TurnInput),
      ∃ l, (g.run_turn inp).state.player.key_parts =
        g.player.key_parts ++ l) := by
  refine ⟨?_, ?_, ?_⟩
  · intro g inp gw h
    unfold Game.run_turn at h
    split at h
    · cases h
    · split at h
      · next hcond =>
        split at h
        · next hesc =>
          injection h with hgw
          rw [Bool.and_eq_true, beq_iff_eq] at hcond
          exact ⟨hcond.1, hcond.2, hesc, hgw.symm⟩
        · exact absurd h (turn_rest_not_won g inp gw)
      · exact absurd h (turn_rest_not_won g inp gw)
  · intro g inp hesc gw h
    unfold Game.run_turn at h
    split at h
    · cases h
    · split at h
      · split at h
        · next h2 =>
          rw [hesc] at h2
          cases h2
        · exact (turn_rest_not_won g inp gw) h
      · exact (turn_rest_not_won g inp gw) h
  · exact run_turn_keys_mono

/-- Witness for C1: the concrete winning turn and the concrete
declined turn. -/
theorem C1_witness :
    (winGame.player.has_all_main_keys = true ∧
      winGame.player.current_room = winGame.start_room ∧
      winInput.escape = true ∧ winGame = winGame) ∧
    winGame.run_turn declineInput ≠ .won winGame ∧
    (∃ l, (winGame.run_turn declineInput).state.player.key_parts =
      winGame.player.key_parts ++ l) := by
  refine ⟨?_, ?_, ?_⟩
  · exact C1_win_gate.1 winGame winInput winGame rfl
  · exact C1_win_gate.2.1 winGame declineInput rfl winGame
  · exact C1_win_gate.2.2 winGame declineInput

/-! ## C4 -/

/-- C4: the secret fragment spawns at most once per run, only at the
end of a turn on which the player holds all of fragments 1–3, and only
into a room other than the start room; the flag is never cleared, and
once it is set the spawn inputs are never consulted again. -/
theorem C4_secret_spawn :
    (∀ (g : Game) (inp : TurnInput), g.secret_key_spawned = true →
      (g.run_turn inp).state.secret_key_spawned = true) ∧
    (∀ (g : Game) (inp : TurnInput) (b : Bool) (p : Nat),
      g.secret_key_spawned = true →
      g.run_turn { inp with spawnRoll := b, spawnPick := p } = g.run_turn inp) ∧
    (∀ (g : Game) (inp : TurnInput),
      g.secret_key_spawned = false →
      (g.run_turn inp).state.secret_key_spawned = true →
      (g.run_turn inp).state.player.has_all_main_keys = true ∧
      (2 ≤ g.rooms.length →
        ∃ i, i ≠ (g.run_turn inp).state.start_room ∧
          Item.keyPart 4 "A cold, ornate key that hums faintly." (BACKSTORIES 4) ∈
            ((g.run_turn inp).state.room_at i).items)) ∧
    (∀ (g : Game) (is : List TurnInput),
      spawn_flips (g :: g.run_states is) ≤ 1) :=
  ⟨run_turn_flag_mono, run_turn_spawn_irrelevant, run_turn_flip, spawn_at_most_once⟩

/-- Witness for C4: a turn that actually spawns the secret fragment
from `winGame`, a flag-preserving turn from `spawnedGame`, and a
two-turn trace with exactly one flip. -/
theorem C4_witness :
    (spawnedGame.run_turn spawnInput).state.secret_key_spawned = true ∧
    spawnedGame.run_turn { spawnInput with spawnRoll := false, spawnPick := 3 } =
      spawnedGame.run_turn spawnInput ∧
    ((winGame.run_turn spawnInput).state.player.has_all_main_keys = true ∧
      (2 ≤ winGame.rooms.length →
        ∃ i, i ≠ (winGame.run_turn spawnInput).state.start_room ∧
          Item.keyPart 4 "A cold, ornate key that hums faintly." (BACKSTORIES 4) ∈
            ((winGame.run_turn spawnInput).state.room_at i).items)) ∧
    spawn_flips (winGame :: winGame.run_states [spawnInput, spawnInput]) ≤ 1 := by
  refine ⟨?_, ?_, ?_, ?_⟩
  · exact C4_secret_spawn.1 spawnedGame spawnInput rfl
  · exact C4_secret_spawn.2.1 spawnedGame spawnInput false 3 rfl
  · exact C4_secret_spawn.2.2.1 winGame spawnInput rfl (by decide)
  · exact C4_secret_spawn.2.2.2 winGame [spawnInput, spawnInput]

/-! ## C8 -/

/-- `describe_current_room` never changes the player. -/
theorem describe_player (g : Game) :
    (g.describe_current_room).1.player = g.player := by
  simp only [Game.describe_current_room]
  split <;> rfl

/-- If the current room's reveal text is already gone, describing the
room presents nothing. -/
theorem describe_none_of_reveal_none (g : Game)
    (h : (g.player_room).reveal_text = none) :
    (g.describe_current_room).2 = none := by
  unfold Game.player_room at h
  simp only [Game.describe_current_room, h]
  simp

/-- Either a describe call fires nothing and leaves the state alone,
or it presents the pending text and clears it. -/
theorem describe_snd_cases (g : Game) :
    ((g.describe_current_room).2 = none ∧ (g.describe_current_room).1 = g) ∨
    (((g.describe_current_room).1.room_at g.player.current_room).reveal_text = none ∧
      (g.describe_current_room).2 = (g.player_room).reveal_text ∧
      (g.player_room).reveal_text ≠ none) := by
  simp only [Game.describe_current_room]
  split
  · next hfires =>
    right
    rw [Bool.and_eq_true] at hfires
    have hrev : (g.room_at g.player.current_room).reveal_text ≠ none := by
      intro hnone
      rw [hnone] at hfires
      simp at hfires
    have hlen : g.player.current_room < g.rooms.length := by
      by_contra hge
      apply hrev
      unfold Game.room_at
      rw [List.getD_eq_default _ _ (by omega)]
      rfl
    refine ⟨?_, rfl, hrev⟩
    unfold Game.room_at
    rw [getD_set_self _ _ _ _ hlen]
  · left
    exact ⟨rfl, rfl⟩

/-- A second describe of the same spot never presents text again. -/
theorem describe_twice_none (g : Game) :
    ((g.describe_current_room).1.describe_current_room).2 = none := by
  rcases describe_snd_cases g with ⟨h2, h1⟩ | ⟨hnone, _, _⟩
  · rw [h1]
    exact h2
  · apply describe_none_of_reveal_none
    unfold Game.player_room
    rw [describe_player]
    exact hnone

/-- C8: a room with unlock requirement `f` is accessible exactly when
`f` has been collected; collecting `f` flips exactly the rooms
requiring `f` from inaccessible to accessible (all others keep their
accessibility), and picking up a key part records it in both the
found-part set and the player's collected list; the one-shot reveal is
presented iff the requirement is collected and the text is still
pending, is cleared by being presented, is never presented twice, and
a consumed reveal stays consumed across any whole turn. -/
theorem C8_unlock_and_reveal :
    (∀ (r : Room) (f : Int) (S : List Int),
      r.required_unlock_part = some f →
      r.is_accessible S = S.contains f) ∧
    (∀ (r : Room) (S : List Int) (f : Int),
      S.contains f = false →
      (r.required_unlock_part = some f →
        r.is_accessible S = false ∧ r.is_accessible (S.insert f) = true) ∧
      (r.required_unlock_part ≠ some f →
        r.is_accessible (S.insert f) = r.is_accessible S)) ∧
    (∀ (g : Game) (inp : SearchInput) (k : Nat) (pid : Int) (ds bs : String),
      g.player_room.items.isEmpty = false →
      inp.pick = some k →
      g.player_room.items.getD (k % g.player_room.items.length) (.generic "" "") =
        .keyPart pid ds bs →
      (g.action_search inp).found_parts = g.found_parts.insert pid ∧
      (g.action_search inp).player.key_parts = g.player.key_parts ++ [pid]) ∧
    (∀ g : Game,
      (g.describe_current_room).2 ≠ none ↔
        ((match (g.player_room).required_unlock_part with
          | some f => f ≠ 0 ∧ g.found_parts.contains f = true
          | none => False) ∧ (g.player_room).reveal_text ≠ none)) ∧
    (∀ g : Game, (g.describe_current_room).2 ≠ none →
      ((g.describe_current_room).1.room_at g.player.current_room).reveal_text = none ∧
      (g.describe_current_room).2 = (g.player_room).reveal_text) ∧
    (∀ g : Game, ((g.describe_current_room).1.describe_current_room).2 = none) ∧
    (∀ (g : Game) (inp : TurnInput) (i : Nat),
      (g.room_at i).reveal_text = none →
      ((g.run_turn inp).state.room_at i).reveal_text = none) := by
  refine ⟨?_, ?_, ?_, ?_, ?_, describe_twice_none, run_turn_reveal_mono⟩
  · intro r f S hreq
    unfold Room.is_accessible
    rw [hreq]
  · intro r S f hnotin
    constructor
    · intro hreq
      unfold Room.is_accessible
      rw [hreq]
      refine ⟨hnotin, ?_⟩
      simp [List.contains, List.elem_eq_mem, List.mem_insert_iff]
    · intro hreq
      unfold Room.is_accessible
      rcases hq : r.required_unlock_part with _ | q
      · rfl
      · have hqf : q ≠ f := by
          intro hc
          rw [hc] at hq
          exact hreq hq
        simp [List.contains, List.elem_eq_mem, List.mem_insert_iff, hqf]
  · intro g inp k pid ds bs hne hpick hkp
    unfold Game.player_room at hne hkp
    simp only [Game.action_search, hne, hpick, Bool.false_eq_true, if_false, hkp]
    constructor <;> first | rfl | trivial
  · intro g
    constructor
    · intro hfire
      rcases describe_snd_cases g with ⟨h2, _⟩ | ⟨_, heq, hrev⟩
      · exact absurd h2 hfire
      · have hfires : ((match (g.player_room).required_unlock_part with
            | some f => decide (f ≠ 0) && g.found_parts.contains f
            | none => false) && (g.player_room).reveal_text.isSome) = true := by
          by_contra hcon
          rw [Bool.not_eq_true] at hcon
          have h0 : (g.describe_current_room).2 = none := by
            unfold Game.player_room at hcon
            simp only [Game.describe_current_room]
            rw [if_neg (by rw [hcon]; simp)]
          exact hfire h0
        rw [Bool.and_eq_true] at hfires
        refine ⟨?_, hrev⟩
        rcases hreq : (g.player_room).required_unlock_part with _ | f
        · rw [hreq] at hfires
          cases hfires.1
        · rw [hreq] at hfires
          have := hfires.1
          rw [Bool.and_eq_true, decide_eq_true_eq] at this
          exact this
    · rintro ⟨hreq, hrev⟩
      have hfires : ((match (g.player_room).required_unlock_part with
          | some f => decide (f ≠ 0) && g.found_parts.contains f
          | none => false) && (g.player_room).reveal_text.isSome) = true := by
        rw [Bool.and_eq_true]
        constructor
        · rcases hq : (g.player_room).required_unlock_part with _ | f
          · rw [hq] at hreq
            cases hreq
          · rw [hq] at hreq
            rw [Bool.and_eq_true, decide_eq_true_eq]
            exact hreq
        · rcases hv : (g.player_room).reveal_text with _ | t
          · exact absurd hv hrev
          · rfl
      simp only [Game.describe_current_room]
      rw [if_pos (by unfold Game.player_room at hfires; exact hfires)]
      simp only
      rcases hv : (g.player_room).reveal_text with _ | t
      · exact absurd hv hrev
      · unfold Game.player_room at hv
        rw [hv]
        simp
  · intro g hfire
    rcases describe_snd_cases g with ⟨h2, _⟩ | ⟨hnone, heq, _⟩
    · exact absurd h2 hfire
    · exact ⟨hnone, heq⟩

/-- Witness for C8: accessibility of the Basement before and after
collecting fragment 1, a concrete key pickup, and the Basement reveal
firing once. -/
theorem C8_witness :
    basementRoom.is_accessible [1] = ([1] : List Int).contains 1 ∧
    (basementRoom.is_accessible [] = false ∧
      basementRoom.is_accessible (([] : List Int).insert 1) = true) ∧
    (foyerRoom.is_accessible (([] : List Int).insert 1) =
      foyerRoom.is_accessible []) ∧
    ((searchGame.action_search searchInput).found_parts =
        searchGame.found_parts.insert 1 ∧
      (searchGame.action_search searchInput).player.key_parts =
        searchGame.player.key_parts ++ [1]) ∧
    (revealGame.describe_current_room).2 ≠ none ∧
    (((revealGame.describe_current_room).1.room_at
        revealGame.player.current_room).reveal_text = none ∧
      (revealGame.describe_current_room).2 =
        (revealGame.player_room).reveal_text) ∧
    ((sampleGame.run_turn winInput).state.room_at 0).reveal_text = none := by
  refine ⟨?_, ?_, ?_, ?_, ?_, ?_, ?_⟩
  · exact C8_unlock_and_reveal.1 basementRoom 1 [1] rfl
  · exact (C8_unlock_and_reveal.2.1 basementRoom [] 1 rfl).1 rfl
  · exact (C8_unlock_and_reveal.2.1 foyerRoom [] 1 rfl).2 (by decide)
  · exact C8_unlock_and_reveal.2.2.1 searchGame searchInput 0 1
      "A tarnished key fragment (1)" (BACKSTORIES 1) rfl rfl rfl
  · exact (C8_unlock_and_reveal.2.2.2.1 revealGame).mpr ⟨⟨by decide, rfl⟩, by decide⟩
  · exact C8_unlock_and_reveal.2.2.2.2.1 revealGame (by decide)
  · exact C8_unlock_and_reveal.2.2.2.2.2.2 sampleGame winInput 0 rfl
